import Mathlib

/-!
# dot_escrow: escrow API handlers, ledger client and repositories

A shallow embedding of the Go sources of the escrow backend.

* `src/backend/internal/api/handlers.go`     : the routed gin handlers (namespace `Backend`)
* `src/backend/internal/blockchain/client.go`: the ledger client (namespace `Blockchain`)
* `src/internal/api/handlers.go`             : the persistence-backed handlers (namespace `Internal`)
* `src/internal/repository/*.go`             : the GORM repositories (namespace `Repository`)
* `src/internal/models/*.go`                 : the row types (namespace `Models`)

The server that `main` starts consists of the files under `src/backend`: `RegisterRoutes`
binds the handlers of `src/backend/internal/api/handlers.go` and nothing else.  Every
file under `src/internal` is kept in the repository as commented-out text, the earlier
persistence-backed implementation; it is embedded as written, and no request to the
server reaches it.

Conventions of the embedding.

* A Go `error` is a value of `GoError`; a Go `(T, error)` result is `Except GoError T`.
* Everything the Go code obtains from outside the repository (the decoded JSON body, the
  answers of the RPC node, the outcome of `Begin`, `Commit` and of each SQL statement,
  `uuid.New()`, `time.Now()`) is an explicit input of the embedded function.
* A gin handler returns the `Response` written with `c.JSON` together with the list of
  ledger-client methods it invoked.
* Goroutines that call the ledger client at the same time are a step relation on the
  package-level mutex and the program points of the calls (namespace `Concurrent`).
-/

namespace DotEscrow

/-! ## Go errors and HTTP responses -/

/-- Go error values as they are built in the sources. -/
inductive GoError where
  /-- The value `errors.New(msg)`. -/
  | new (msg : String)
  /-- The value `fmt.Errorf(text + ": %w", cause)`. -/
  | wrap (text : String) (cause : GoError)
  /-- The value `hex.InvalidByteError(c)` of `encoding/hex`. -/
  | hexInvalidByte (c : Char)
  /-- The value `hex.ErrLength` of `encoding/hex`. -/
  | hexErrLength
  /-- The `validator.ValidationErrors` value of a failed binding: the failing
  `(field, tag)` pairs. -/
  | validation (failures : List (String × String))
  /-- An error produced outside the repository (JSON decoder, SQL driver, RPC node). -/
  | external (msg : String)
  deriving DecidableEq, Repr

deriving instance DecidableEq for Except

/-- A string or integer entry of a nested JSON object. -/
inductive JScalar where
  | str (s : String)
  | int (n : Int)
  deriving DecidableEq, Repr

/-- The values placed in a `gin.H` response body. -/
inductive JVal where
  /-- A string literal or string variable. -/
  | str (s : String)
  /-- An unsigned integer. -/
  | nat (n : Nat)
  /-- The string `err.Error()`. -/
  | errText (e : GoError)
  /-- The string `fmt.Sprintf(text + ": %v", err)`. -/
  | errorf (text : String) (e : GoError)
  /-- A slice of `map[string]interface{}` values. -/
  | records (rows : List (List (String × JScalar)))
  deriving DecidableEq, Repr

/-- A `c.JSON(status, gin.H{...})` call: status code and the key/value pairs of the body. -/
structure Response where
  status : Nat
  body : List (String × JVal)
  deriving DecidableEq, Repr

def StatusOK : Nat := 200
def StatusCreated : Nat := 201
def StatusBadRequest : Nat := 400
def StatusInternalServerError : Nat := 500

/-! ## Go `float64`

`Percentage` is a `float64` and the handlers add, divide and multiply such values.  A
finite value is kept as sign, integer mantissa and binary exponent; every operation
returns the exact result rounded to the nearest binary64 value, ties to even, which is
what Go specifies for `float64` arithmetic. -/

/-- A binary64 value: NaN, an infinity, or the finite value `(-1)^neg * m * 2^e`. -/
inductive F64 where
  | nan
  | inf (neg : Bool)
  | fin (neg : Bool) (m : Nat) (e : Int)
  deriving DecidableEq, Repr

namespace F64

/-- Halving loop computing `floor (log2 n)`; `fuel` bounds the number of halvings. -/
def log2Fuel : Nat → Nat → Nat
  | 0, _ => 0
  | fuel + 1, n => if 2 ≤ n then log2Fuel fuel (n / 2) + 1 else 0

/-- The value `floor (log2 n)` for `n > 0`. -/
def ilog2 (n : Nat) : Nat := log2Fuel n n

/-- The value `floor (log2 (n / d))` for `n, d > 0`. -/
def floorLog2Ratio (n d : Nat) : Int :=
  let e0 : Int := (ilog2 n : Int) - (ilog2 d : Int)
  if 0 ≤ e0 then (if d * 2 ^ e0.toNat ≤ n then e0 else e0 - 1)
  else (if d ≤ n * 2 ^ (-e0).toNat then e0 else e0 - 1)

/-- The integer nearest to `N / D`, ties to the even one. -/
def roundHalfEven (N D : Nat) : Nat :=
  let q := N / D
  let r := N % D
  if D < 2 * r ∨ (2 * r = D ∧ q % 2 = 1) then q + 1 else q

/-- The binary64 value nearest to `(-1)^neg * n / d` (`d > 0`): 53 significant bits,
least exponent `-1074` (subnormals), overflow to infinity from `2^1024 - 2^970` on. -/
def roundRatio (neg : Bool) (n d : Nat) : F64 :=
  if n = 0 then .fin neg 0 0 else
  let E := floorLog2Ratio n d
  let q : Int := max (E - 52) (-1074)
  let N := if q < 0 then n * 2 ^ (-q).toNat else n
  let D := if q < 0 then d else d * 2 ^ q.toNat
  let m := roundHalfEven N D
  if 1024 ≤ (ilog2 m : Int) + q then .inf neg else .fin neg m q

/-- The binary64 value nearest to `(-1)^neg * n * 2^e`. -/
def roundScaled (neg : Bool) (n : Nat) (e : Int) : F64 :=
  if e < 0 then roundRatio neg n (2 ^ (-e).toNat) else roundRatio neg (n * 2 ^ e.toNat) 1

/-- Conversion of an untyped integer constant such as `100`. -/
def ofNat (n : Nat) : F64 := roundRatio false n 1

/-- Go `x + y` on `float64`. -/
def add : F64 → F64 → F64
  | .nan, _ => .nan
  | _, .nan => .nan
  | .inf a, .inf b => if a = b then .inf a else .nan
  | .inf a, .fin _ _ _ => .inf a
  | .fin _ _ _, .inf b => .inf b
  | .fin n1 m1 e1, .fin n2 m2 e2 =>
    let e := min e1 e2
    let a : Int := (m1 * 2 ^ (e1 - e).toNat : Nat)
    let b : Int := (m2 * 2 ^ (e2 - e).toNat : Nat)
    let s : Int := (if n1 then -a else a) + (if n2 then -b else b)
    if s = 0 then .fin (n1 && n2) 0 0 else roundScaled (decide (s < 0)) s.natAbs e

/-- Go `x * y` on `float64`. -/
def mul : F64 → F64 → F64
  | .nan, _ => .nan
  | _, .nan => .nan
  | .inf a, .inf b => .inf (xor a b)
  | .inf a, .fin b m _ => if m = 0 then .nan else .inf (xor a b)
  | .fin a m _, .inf b => if m = 0 then .nan else .inf (xor a b)
  | .fin n1 m1 e1, .fin n2 m2 e2 => roundScaled (xor n1 n2) (m1 * m2) (e1 + e2)

/-- Go `x / y` on `float64`. -/
def div : F64 → F64 → F64
  | .nan, _ => .nan
  | _, .nan => .nan
  | .inf _, .inf _ => .nan
  | .inf a, .fin b _ _ => .inf (xor a b)
  | .fin a _ _, .inf b => .fin (xor a b) 0 0
  | .fin n1 m1 e1, .fin n2 m2 e2 =>
    if m2 = 0 then (if m1 = 0 then .nan else .inf (xor n1 n2))
    else
      let e := min e1 e2
      roundRatio (xor n1 n2) (m1 * 2 ^ (e1 - e).toNat) (m2 * 2 ^ (e2 - e).toNat)

/-- Go `x == y` on `float64`: NaN equals nothing, the two zeros are equal. -/
def eq : F64 → F64 → Bool
  | .nan, _ => false
  | _, .nan => false
  | .inf a, .inf b => a == b
  | .inf _, .fin _ _ _ => false
  | .fin _ _ _, .inf _ => false
  | .fin n1 m1 e1, .fin n2 m2 e2 =>
    let e := min e1 e2
    let a := m1 * 2 ^ (e1 - e).toNat
    let b := m2 * 2 ^ (e2 - e).toNat
    a == b && (a == 0 || n1 == n2)

/-- Go `x != y` on `float64`. -/
def ne (x y : F64) : Bool := !(eq x y)

/-- The last `width` decimal digits of `n`, zero padded on the left. -/
def digits : Nat → Nat → List Char
  | 0, _ => []
  | width + 1, n => digits width (n / 10) ++ [Char.ofNat (48 + n % 10)]

/-- The result of `fmt.Sprintf("%f", x)`: six digits after the point, the exact binary
value rounded half to even. -/
def sprintF (x : F64) : String :=
  match x with
  | .nan => "NaN"
  | .inf false => "+Inf"
  | .inf true => "-Inf"
  | .fin neg m e =>
    let N := if e < 0 then m * 10 ^ 6 else m * 2 ^ e.toNat * 10 ^ 6
    let D := if e < 0 then 2 ^ (-e).toNat else 1
    let k := roundHalfEven N D
    (if neg then "-" else "") ++ toString (k / 10 ^ 6) ++ "." ++ String.mk (digits 6 (k % 10 ^ 6))

end F64

/-- The value of a string of decimal digits. -/
def decimalValue (ds : List Char) : Nat :=
  ds.foldl (fun acc c => acc * 10 + (c.toNat - 48)) 0

/-- Splits an optional leading sign off: `(negative, rest)`. -/
def splitSign : List Char → Bool × List Char
  | '-' :: r => (true, r)
  | '+' :: r => (false, r)
  | r => (false, r)

/-- The check `new(big.Int).SetString(s, 10)`: an optional sign followed by at least one
decimal digit and nothing else; `none` is the `ok == false` result. -/
def bigIntSetString (s : String) : Option Int :=
  let (neg, ds) := splitSign s.data
  if ds ≠ [] ∧ ds.all Char.isDigit then
    some (if neg then -(decimalValue ds : Int) else (decimalValue ds : Int))
  else none

/-- The characters `0` to `9`. -/
def isDecimalDigit (c : Char) : Bool := '0' ≤ c ∧ c ≤ '9'

/-- A non-empty sequence of decimal digits with an optional leading sign. -/
def isSignedDecimal (s : String) : Bool :=
  match s.data with
  | '+' :: ds => !ds.isEmpty && ds.all isDecimalDigit
  | '-' :: ds => !ds.isEmpty && ds.all isDecimalDigit
  | ds => !ds.isEmpty && ds.all isDecimalDigit

/-- The value of `strconv.ParseFloat(s, 64)` with the error discarded, on signed decimal
integer literals: the nearest binary64 value.  Any other text is answered `0` as for a
syntax error (fractions, exponents, hexadecimal and `inf`/`nan` spellings are not
modelled); `CreateEscrow` reaches the call only with texts accepted by
`bigIntSetString`. -/
def parseFloat (s : String) : F64 :=
  let (neg, ds) := splitSign s.data
  if ds ≠ [] ∧ ds.all Char.isDigit then F64.roundRatio neg (decimalValue ds) 1
  else .fin false 0 0

/-! ## Ledger client (`src/backend/internal/blockchain/client.go`) -/

namespace Blockchain

/-- Value of one hexadecimal digit (`reverseHexTable` of `encoding/hex`). -/
def fromHexChar (c : Char) : Option Nat :=
  if '0' ≤ c ∧ c ≤ '9' then some (c.toNat - 48)
  else if 'a' ≤ c ∧ c ≤ 'f' then some (c.toNat - 97 + 10)
  else if 'A' ≤ c ∧ c ≤ 'F' then some (c.toNat - 65 + 10)
  else none

/-- The function `hex.DecodeString`: pairs of hex digits to bytes; the first invalid
character is reported, an odd number of valid digits is `ErrLength`. -/
def hexDecodeString : List Char → Except GoError (List Nat)
  | [] => .ok []
  | [p] =>
    match fromHexChar p with
    | none => .error (.hexInvalidByte p)
    | some _ => .error .hexErrLength
  | p :: q :: rest =>
    match fromHexChar p with
    | none => .error (.hexInvalidByte p)
    | some a =>
      match fromHexChar q with
      | none => .error (.hexInvalidByte q)
      | some b =>
        match hexDecodeString rest with
        | .error e => .error e
        | .ok bs => .ok ((a * 16 + b) :: bs)

/-- Helper `hexDecodeAddress`: strips a leading `0x` when the text is longer than two
characters, decodes the hex digits and fits the bytes into the 32-byte `AccountID`
(left padding with zeros, or truncation).  Go indexes the text by bytes; the embedding
indexes it by characters, which is the same on the ASCII texts that decode. -/
def hexDecodeAddress (address : String) : Except GoError (List Nat) :=
  let address : List Char :=
    if address.data.length > 2 ∧ address.data.take 2 = ['0', 'x'] then address.data.drop 2
    else address.data
  match hexDecodeString address with
  | .error err => .error (.wrap "invalid address format" err)
  | .ok bytes =>
    let bytes :=
      if bytes.length ≠ 32 then
        if bytes.length < 32 then List.replicate (32 - bytes.length) 0 ++ bytes
        else bytes.take 32
      else bytes
    .ok bytes

/-- The characters `0`-`9`, `a`-`f` and `A`-`F`. -/
def isHexDigit (c : Char) : Bool :=
  ('0' ≤ c ∧ c ≤ '9') ∨ ('a' ≤ c ∧ c ≤ 'f') ∨ ('A' ≤ c ∧ c ≤ 'F')

/-- The text without its leading `0x` when it is longer than two characters and starts
with `0x`, and the text itself otherwise. -/
def withoutHexPrefix (s : List Char) : List Char :=
  if s.length > 2 ∧ s.take 2 = ['0', 'x'] then s.drop 2 else s

/-- The lowercase hexadecimal digits. -/
def lowerHexDigits : List Char := "0123456789abcdef".data

/-- The number a byte sequence denotes in big-endian order. -/
def bigEndianValue (bytes : List Nat) : Nat :=
  bytes.foldl (fun acc b => acc * 256 + b) 0

/-- One lowercase hexadecimal digit. -/
def hexDigit (n : Nat) : Char :=
  if n < 10 then Char.ofNat (48 + n) else Char.ofNat (87 + n)

/-- The text `fmt.Sprintf("%x", bytes)`: two lowercase hex digits per byte. -/
def hexEncode (bytes : List Nat) : List Char :=
  bytes.flatMap (fun b => [hexDigit (b / 16), hexDigit (b % 16)])

/-- The answers of the Substrate RPC node that the client methods consult.  The node is
outside the repository; each field is the result of the named call at the time of the
request. -/
structure SubstrateAPI where
  /-- Result of `RPC.State.GetMetadataLatest()`. -/
  getMetadataLatest : Except GoError Unit
  /-- Result of `types.CreateStorageKey(meta, "System", "Account", key)`. -/
  createStorageKey : Except GoError Unit
  /-- Result of `RPC.State.GetStorageLatest(key, &accountInfo)`: found flag, or error. -/
  getStorageLatest : Except GoError Bool
  /-- Result of `RPC.System.Chain()`. -/
  systemChain : Except GoError String
  /-- Result of `RPC.System.Version()`. -/
  systemVersion : Except GoError String
  /-- Result of `RPC.System.Properties()`, rendered as text. -/
  systemProperties : Except GoError String
  /-- The text `accountInfo.Data.Free.String()` of the account read by
  `GetStorageLatest`. -/
  freeBalance : String
  deriving Repr

/-- The `Client` struct: the `api` pointer may be nil; `publicKey` is
`keyring.PublicKey`. -/
structure Client where
  api : Option SubstrateAPI
  publicKey : List Nat
  deriving Repr

/-- `Client.CreateEscrow`: nil check, both addresses through `hexDecodeAddress`, the
amount through `big.Int.SetString`, three node queries, then the simulated contract id
`0x` followed by the hex digits of the first eight bytes of the public key.  The
`milestones` argument is not read. -/
def Client.CreateEscrow (c : Client) (clientAddress providerAddress amount : String) :
    Except GoError String :=
  match c.api with
  | none => .error (.new "blockchain client not initialized")
  | some api =>
    match hexDecodeAddress clientAddress with
    | .error err => .error (.wrap "invalid client address" err)
    | .ok _ =>
      match hexDecodeAddress providerAddress with
      | .error err => .error (.wrap "invalid provider address" err)
      | .ok _ =>
        match bigIntSetString amount with
        | none => .error (.new "invalid amount format")
        | some _ =>
          match api.getMetadataLatest with
          | .error err => .error (.wrap "failed to get metadata" err)
          | .ok _ =>
            match api.createStorageKey with
            | .error err => .error (.wrap "failed to create storage key" err)
            | .ok _ =>
              match api.getStorageLatest with
              | .error err => .error (.wrap "failed to get account info" err)
              | .ok _ => .ok (String.mk (['0', 'x'] ++ hexEncode (c.publicKey.take 8)))

/-- `Client.ReleaseFunds`: after the nil check the method only logs and returns nil;
`contractID`, `milestoneID` and `amount` are used for the log line only. -/
def Client.ReleaseFunds (c : Client) (_contractID : String) (_milestoneID : Nat)
    (_amount : String) : Except GoError Unit :=
  match c.api with
  | none => .error (.new "blockchain client not initialized")
  | some _ => .ok ()

/-- The map returned by `Client.GetChainInfo`: keys `chain`, `version`, `properties`. -/
structure ChainInfo where
  chain : String
  version : String
  properties : String
  deriving DecidableEq, Repr

/-- `Client.GetChainInfo`: nil check, then the three `RPC.System` queries. -/
def Client.GetChainInfo (c : Client) : Except GoError ChainInfo :=
  match c.api with
  | none => .error (.new "blockchain client not initialized")
  | some api =>
    match api.systemChain with
    | .error err => .error (.wrap "failed to get chain" err)
    | .ok chain =>
      match api.systemVersion with
      | .error err => .error (.wrap "failed to get version" err)
      | .ok version =>
        match api.systemProperties with
        | .error err => .error (.wrap "failed to get properties" err)
        | .ok properties => .ok { chain := chain, version := version, properties := properties }

/-- `Client.GetBalance`: the Go result pair `(balance, err)`.  After the nil check the
address goes through `hexDecodeAddress`; then metadata, storage key and the account
storage are queried.  The log lines written on the way are not part of the result. -/
def Client.GetBalance (c : Client) (address : String) : String × Option GoError :=
  match c.api with
  | none => ("0", some (.new "blockchain client not initialized"))
  | some api =>
    match hexDecodeAddress address with
    | .error err => ("0", some (.wrap "invalid address" err))
    | .ok _ =>
      match api.getMetadataLatest with
      | .error err => ("0", some (.wrap "failed to get metadata" err))
      | .ok _ =>
        match api.createStorageKey with
        | .error err => ("0", some (.wrap "failed to create storage key" err))
        | .ok _ =>
          match api.getStorageLatest with
          | .error err => ("0", some (.wrap "failed to get account info" err))
          | .ok false => ("0", none)
          | .ok true => (api.freeBalance, none)

/-- `Client.VerifyCondition`: after the nil check the method only logs and returns nil;
it calls no other method of the client. -/
def Client.VerifyCondition (c : Client) (_contractID : String) (_milestoneID : Nat)
    (_conditionIndex : Nat) (_verificationData : List Nat) : Except GoError Unit :=
  match c.api with
  | none => .error (.new "blockchain client not initialized")
  | some _ => .ok ()

/-- `Client.CreateDispute`: after the nil check the method only logs and returns nil. -/
def Client.CreateDispute (c : Client) (_contractID : String) (_milestoneID : Nat)
    (_reason : String) : Except GoError Unit :=
  match c.api with
  | none => .error (.new "blockchain client not initialized")
  | some _ => .ok ()

/-- `Client.ResolveDispute`: after the nil check the method only logs and returns nil. -/
def Client.ResolveDispute (c : Client) (_disputeID : Nat) (_inFavorOfClient : Bool) :
    Except GoError Unit :=
  match c.api with
  | none => .error (.new "blockchain client not initialized")
  | some _ => .ok ()

/-- `Client.CancelEscrow`: after the nil check the method only logs and returns nil. -/
def Client.CancelEscrow (c : Client) (_contractID : String) : Except GoError Unit :=
  match c.api with
  | none => .error (.new "blockchain client not initialized")
  | some _ => .ok ()

/-- `Client.AddReleaseCondition`: after the nil check the method only logs and returns
nil; `conditionType` is the integer `ReleaseConditionType` of the client package. -/
def Client.AddReleaseCondition (c : Client) (_contractID : String) (_milestoneID : Nat)
    (_conditionType : Nat) (_conditionData : List Nat) : Except GoError Unit :=
  match c.api with
  | none => .error (.new "blockchain client not initialized")
  | some _ => .ok ()

/-- `Client.RequestMilestoneModification`: after the nil check the method only logs and
returns nil. -/
def Client.RequestMilestoneModification (c : Client) (_contractID : String)
    (_milestoneID : Nat) (_newTitle _newDescription : Option String)
    (_newDeadline : Option Int) : Except GoError Unit :=
  match c.api with
  | none => .error (.new "blockchain client not initialized")
  | some _ => .ok ()

/-- `Client.ApproveMilestoneModification`: after the nil check the method only logs and
returns nil. -/
def Client.ApproveMilestoneModification (c : Client) (_contractID : String)
    (_milestoneID : Nat) : Except GoError Unit :=
  match c.api with
  | none => .error (.new "blockchain client not initialized")
  | some _ => .ok ()

/-- `Client.ConfirmMilestoneCompletion`: after the nil check the method only logs and
returns nil. -/
def Client.ConfirmMilestoneCompletion (c : Client) (_contractID : String)
    (_milestoneID : Nat) : Except GoError Unit :=
  match c.api with
  | none => .error (.new "blockchain client not initialized")
  | some _ => .ok ()

/-- `Client.AddMilestoneEvidence`: after the nil check the method only logs and returns
nil. -/
def Client.AddMilestoneEvidence (c : Client) (_contractID : String) (_milestoneID : Nat)
    (_evidenceHash : List Nat) : Except GoError Unit :=
  match c.api with
  | none => .error (.new "blockchain client not initialized")
  | some _ => .ok ()

/-- `Client.GetEscrowDetails`: after the nil check the simulated details of the
contract; `now` is `time.Now().Unix()`. -/
def Client.GetEscrowDetails (c : Client) (contractID : String) (now : Int) :
    Except GoError (List (String × JScalar)) :=
  match c.api with
  | none => .error (.new "blockchain client not initialized")
  | some _ =>
    .ok [ ("id", .str contractID),
          ("clientAddress", .str "5GrwvaEF5zXb26Fz9rcQpDWS57CtERHpNehXCPcNoHGKutQY"),
          ("providerAddress", .str "5FHneW46xGXgs5mUiveU4sbTyGBzmstUspZC92UhjJM694ty"),
          ("amount", .str "1000000000000000000"),
          ("status", .str "Active"),
          ("created_at", .int now) ]

/-- `Client.GetMilestones`: after the nil check the three simulated milestones; `now`
is `time.Now().Unix()`. -/
def Client.GetMilestones (c : Client) (_contractID : String) (now : Int) :
    Except GoError (List (List (String × JScalar))) :=
  match c.api with
  | none => .error (.new "blockchain client not initialized")
  | some _ =>
    .ok [ [ ("id", .int 0), ("title", .str "Initial Design"),
            ("description", .str "Complete initial design mockups"),
            ("percentage", .int 30), ("amount", .str "300000000000000000"),
            ("status", .str "Completed"), ("created_at", .int (now - 86400)),
            ("completed_at", .int (now - 43200)) ],
          [ ("id", .int 1), ("title", .str "Frontend Implementation"),
            ("description", .str "Implement frontend based on design"),
            ("percentage", .int 40), ("amount", .str "400000000000000000"),
            ("status", .str "Pending"), ("created_at", .int (now - 86400)),
            ("deadline_at", .int (now + 259200)) ],
          [ ("id", .int 2), ("title", .str "Backend Integration"),
            ("description", .str "Connect frontend to backend APIs"),
            ("percentage", .int 30), ("amount", .str "300000000000000000"),
            ("status", .str "Pending"), ("created_at", .int (now - 86400)),
            ("deadline_at", .int (now + 518400)) ] ]

/-- A call of one of the exported methods of `Client`, with its arguments. -/
inductive Operation where
  | getChainInfo
  | getBalance (address : String)
  | createEscrow (clientAddress providerAddress amount : String)
  | releaseFunds (contractID : String) (milestoneID : Nat) (amount : String)
  | cancelEscrow (contractID : String)
  | addReleaseCondition (contractID : String) (milestoneID conditionType : Nat)
      (conditionData : List Nat)
  | verifyCondition (contractID : String) (milestoneID conditionIndex : Nat)
      (verificationData : List Nat)
  | requestMilestoneModification (contractID : String) (milestoneID : Nat)
      (newTitle newDescription : Option String) (newDeadline : Option Int)
  | approveMilestoneModification (contractID : String) (milestoneID : Nat)
  | confirmMilestoneCompletion (contractID : String) (milestoneID : Nat)
  | addMilestoneEvidence (contractID : String) (milestoneID : Nat) (evidenceHash : List Nat)
  | createDispute (contractID : String) (milestoneID : Nat) (reason : String)
  | resolveDispute (disputeID : Nat) (inFavorOfClient : Bool)
  | getEscrowDetails (contractID : String)
  | getMilestones (contractID : String)
  deriving DecidableEq, Repr

/-- The error of an `Except` result, `none` for nil. -/
def errorOf {α : Type} : Except GoError α → Option GoError
  | .error e => some e
  | .ok _ => none

/-- The `error` the method returns (`none` for nil); `now` is the clock reading of the
two simulated queries. -/
def Client.returnedError (c : Client) (now : Int) : Operation → Option GoError
  | .getChainInfo => errorOf c.GetChainInfo
  | .getBalance address => (c.GetBalance address).2
  | .createEscrow a b amount => errorOf (c.CreateEscrow a b amount)
  | .releaseFunds id m amount => errorOf (c.ReleaseFunds id m amount)
  | .cancelEscrow id => errorOf (c.CancelEscrow id)
  | .addReleaseCondition id m t d => errorOf (c.AddReleaseCondition id m t d)
  | .verifyCondition id m i d => errorOf (c.VerifyCondition id m i d)
  | .requestMilestoneModification id m t d dl =>
      errorOf (c.RequestMilestoneModification id m t d dl)
  | .approveMilestoneModification id m => errorOf (c.ApproveMilestoneModification id m)
  | .confirmMilestoneCompletion id m => errorOf (c.ConfirmMilestoneCompletion id m)
  | .addMilestoneEvidence id m h => errorOf (c.AddMilestoneEvidence id m h)
  | .createDispute id m r => errorOf (c.CreateDispute id m r)
  | .resolveDispute d f => errorOf (c.ResolveDispute d f)
  | .getEscrowDetails id => errorOf (c.GetEscrowDetails id now)
  | .getMilestones id => errorOf (c.GetMilestones id now)

/-- A query sent to the node through `c.api.RPC`. -/
inductive RpcCall where
  | systemChain
  | systemVersion
  | systemProperties
  | getMetadataLatest
  | getStorageLatest
  deriving DecidableEq, Repr

/-- The queries `GetBalance` and `CreateEscrow` send once their arguments are accepted:
the metadata, and the account storage when metadata and storage key were obtained. -/
def accountQueries (api : SubstrateAPI) : List RpcCall :=
  match api.getMetadataLatest with
  | .error _ => [.getMetadataLatest]
  | .ok _ =>
    match api.createStorageKey with
    | .error _ => [.getMetadataLatest]
    | .ok _ => [.getMetadataLatest, .getStorageLatest]

/-- The queries the method sends to the node, in order.  Only `GetChainInfo`,
`GetBalance` and `CreateEscrow` contain calls through `c.api.RPC`, each after the nil
check; the other methods are simulated and send nothing. -/
def Client.rpcCalls (c : Client) : Operation → List RpcCall
  | .getChainInfo =>
    match c.api with
    | none => []
    | some api =>
      match api.systemChain with
      | .error _ => [.systemChain]
      | .ok _ =>
        match api.systemVersion with
        | .error _ => [.systemChain, .systemVersion]
        | .ok _ => [.systemChain, .systemVersion, .systemProperties]
  | .getBalance address =>
    match c.api with
    | none => []
    | some api =>
      match hexDecodeAddress address with
      | .error _ => []
      | .ok _ => accountQueries api
  | .createEscrow a b amount =>
    match c.api with
    | none => []
    | some api =>
      match hexDecodeAddress a, hexDecodeAddress b, bigIntSetString amount with
      | .ok _, .ok _, some _ => accountQueries api
      | _, _, _ => []
  | _ => []

/-- The fields of `config.Config` that `Initialize` reads. -/
structure Config where
  PolkadotRPCURL : String
  PolkadotKeypairSeed : String
  PolkadotNetworkID : Nat
  EscrowContractAddress : String
  EscrowContractConstructor : String
  deriving DecidableEq, Repr

/-- The package-level variables `client` and `once`. -/
structure Package where
  client : Option Client
  onceDone : Bool
  deriving Repr

/-- The package before the first call of `Initialize`. -/
def Package.initial : Package := { client := none, onceDone := false }

/-- The function literal passed to `once.Do`: the new value of the package variable
`client`.  The literal declares its own `api, err` and `keyring, err` with `:=`; it
returns nothing and assigns no variable of `Initialize` other than `client`.
`newAPI` is the result of `gsrpc.NewSubstrateAPI(cfg.PolkadotRPCURL)`, `keyring` the
public key of `signature.KeyringPairFromSecret(cfg.PolkadotKeypairSeed, ...)` or its
error. -/
def initializeOnce (client : Option Client) (_cfg : Config)
    (newAPI : Except GoError SubstrateAPI) (keyring : Except GoError (List Nat)) :
    Option Client :=
  match newAPI with
  | .error _ => client
  | .ok api =>
    match keyring with
    | .error _ => client
    | .ok publicKey => some { api := some api, publicKey := publicKey }

/-- Function `Initialize`: `var err error`, `once.Do(...)`, `return client, err`.  The
result is the returned pair and the package afterwards. -/
def Initialize (pkg : Package) (cfg : Config) (newAPI : Except GoError SubstrateAPI)
    (keyring : Except GoError (List Nat)) : (Option Client × Option GoError) × Package :=
  let err : Option GoError := none
  let pkg1 : Package :=
    if pkg.onceDone then pkg
    else { client := initializeOnce pkg.client cfg newAPI keyring, onceDone := true }
  ((pkg1.client, err), pkg1)

/-- The check of `main` after `blockchain.Initialize(cfg)`: `log.Fatalf` is reached
exactly when the returned error is not nil. -/
def mainStopsAfterInitialize (pkg : Package) (cfg : Config)
    (newAPI : Except GoError SubstrateAPI) (keyring : Except GoError (List Nat)) : Bool :=
  (Initialize pkg cfg newAPI keyring).1.2.isSome

end Blockchain

/-! ## Row types (`src/internal/models`, `src/backend/internal/models`) -/

namespace Models

/-- A `uuid.UUID`; `0` stands for `uuid.Nil`. -/
abbrev UUID := Nat

/-- A `time.Time`; `0` stands for the zero time. -/
abbrev Time := Nat

/-- Struct `Escrow` (columns only; the `Milestones` and `Disputes` relations live in
their own tables). -/
structure Escrow where
  ID : UUID
  Title : String
  Description : String
  ClientAddress : String
  ClientName : String
  ProviderAddress : String
  ProviderName : String
  TotalAmount : String
  ReleasedAmount : String
  RemainingAmount : String
  Status : String
  CreatedAt : Time
  UpdatedAt : Time
  DeadlineAt : Time
  ContractID : String
  TokenAddress : String
  deriving DecidableEq, Repr

/-- Hook `(*Escrow).BeforeCreate`; `newID` is `uuid.New()`, `t1` and `t2` the two
readings of `time.Now()`. -/
def Escrow.BeforeCreate (e : Escrow) (newID : UUID) (t1 t2 : Time) : Escrow :=
  { e with
    ID := if e.ID = 0 then newID else e.ID
    CreatedAt := t1
    UpdatedAt := t2
    ReleasedAmount := "0"
    RemainingAmount := e.TotalAmount }

/-- Struct `Milestone` (columns only). -/
structure Milestone where
  ID : UUID
  EscrowID : UUID
  Title : String
  Description : String
  Percentage : F64
  Amount : String
  Status : String
  CreatedAt : Time
  UpdatedAt : Time
  DeadlineAt : Time
  CompletedAt : Time
  EvidenceHash : String
  EvidenceLink : String
  EvidenceAddedAt : Time
  ModificationRequested : Bool
  ModificationApproved : Bool
  ModificationRequestedBy : String
  ModificationRequestedAt : Time
  deriving DecidableEq, Repr

/-- Hook `(*Milestone).BeforeCreate`. -/
def Milestone.BeforeCreate (m : Milestone) (newID : UUID) (t1 t2 : Time) : Milestone :=
  { m with
    ID := if m.ID = 0 then newID else m.ID
    CreatedAt := t1
    UpdatedAt := t2 }

/-- Struct `MilestoneCreate` of the creation request. -/
structure MilestoneCreate where
  Title : String
  Description : String
  Percentage : F64
  DeadlineAt : Time
  deriving DecidableEq, Repr

/-- Struct `ReleaseCondition`; `Type_` is the Go field `Type`, a `ReleaseConditionType`
string. -/
structure ReleaseCondition where
  ID : UUID
  MilestoneID : UUID
  Type_ : String
  ConditionData : String
  IsMet : Bool
  VerifiedAt : Time
  VerifiedBy : String
  CreatedAt : Time
  deriving DecidableEq, Repr

/-- Hook `(*ReleaseCondition).BeforeCreate`. -/
def ReleaseCondition.BeforeCreate (rc : ReleaseCondition) (newID : UUID) (t : Time) :
    ReleaseCondition :=
  { rc with
    ID := if rc.ID = 0 then newID else rc.ID
    CreatedAt := t }

/-- Struct `Dispute`: the columns of a row of table `disputes`.  The `Messages` relation
of the struct is not a column; its rows are `DisputeMessage` rows of their own table,
and a dispute value of this type carries none. -/
structure Dispute where
  ID : UUID
  EscrowID : UUID
  MilestoneID : UUID
  InitiatorAddress : String
  Title : String
  Description : String
  Status : String
  Resolution : String
  CreatedAt : Time
  UpdatedAt : Time
  ResolvedAt : Time
  deriving DecidableEq, Repr

/-- Hook `(*Dispute).BeforeCreate`. -/
def Dispute.BeforeCreate (d : Dispute) (newID : UUID) (t1 t2 : Time) : Dispute :=
  { d with
    ID := if d.ID = 0 then newID else d.ID
    CreatedAt := t1
    UpdatedAt := t2 }

/-- Struct `DisputeMessage`. -/
structure DisputeMessage where
  ID : UUID
  DisputeID : UUID
  Address : String
  Message : String
  CreatedAt : Time
  deriving DecidableEq, Repr

/-- Hook `(*DisputeMessage).BeforeCreate`. -/
def DisputeMessage.BeforeCreate (m : DisputeMessage) (newID : UUID) (t : Time) :
    DisputeMessage :=
  { m with
    ID := if m.ID = 0 then newID else m.ID
    CreatedAt := t }

end Models

/-! ## Repositories (`src/internal/repository`) -/

namespace Repository

open Models

/-- The tables behind `*gorm.DB`. -/
structure DB where
  escrows : List Escrow
  milestones : List Milestone
  releaseConditions : List ReleaseCondition
  disputes : List Dispute
  disputeMessages : List DisputeMessage
  deriving DecidableEq, Repr

/-- The database with no rows. -/
def DB.empty : DB :=
  { escrows := [], milestones := [], releaseConditions := [], disputes := [],
    disputeMessages := [] }

/-- The driver error of an `INSERT` whose primary key is already present. -/
def duplicateKey : GoError := .external "duplicate key value violates unique constraint"

/-- What the gorm session records about a transaction. -/
inductive TxEvent where
  | begin
  | commit
  | rollback
  deriving DecidableEq, Repr

/-- How the callback given to `Transaction` ends: it returns (nil or an error) or it
panics; `db` is the state of the transaction's working copy at that point. -/
inductive FnResult where
  | returned (err : Option GoError) (db : DB)
  | panicked (r : String) (db : DB)
  deriving DecidableEq, Repr

/-- How `Transaction` ends: it returns nil or an error, or the panic of the callback is
re-thrown. -/
inductive TxReturn where
  | nil
  | err (e : GoError)
  | panic (r : String)
  deriving DecidableEq, Repr

/-- The result of `Transaction`: what it returned, the database afterwards and the
events of the transaction. -/
structure TxResult where
  ret : TxReturn
  db : DB
  log : List TxEvent
  deriving DecidableEq, Repr

/-- Function `Transaction`.  `beginErr` is `tx.Error` after `Begin()`, `commitErr` the
error of `tx.Commit()`; `fn` runs on the working copy of the transaction.  The Go text
fixes the calls made on `tx` and the value returned; what the store holds after
`Rollback()` or after a `Commit()` that returned an error is the contract of the store,
taken here as that of a PostgreSQL transaction: the writes of the callback are
discarded. -/
def Transaction (db : DB) (beginErr commitErr : Option GoError) (fn : DB → FnResult) :
    TxResult :=
  match beginErr with
  | some e => { ret := .err (.wrap "failed to begin transaction" e), db := db, log := [] }
  | none =>
    match fn db with
    | .panicked r _ => { ret := .panic r, db := db, log := [.begin, .rollback] }
    | .returned (some err) _ => { ret := .err err, db := db, log := [.begin, .rollback] }
    | .returned none work =>
      match commitErr with
      | some err =>
          { ret := .err (.wrap "failed to commit transaction" err), db := db,
            log := [.begin, .commit] }
      | none => { ret := .nil, db := work, log := [.begin, .commit] }

/-- Method `GormEscrowRepository.Create`: the `BeforeCreate` hook, then the `INSERT`
(`Status` defaults to `active`).  `fault` is a failure of the statement reported by the
driver. -/
def GormEscrowRepository.Create (db : DB) (fault : Option GoError) (newID : UUID)
    (t1 t2 : Time) (escrow : Escrow) : Except GoError DB :=
  let row := escrow.BeforeCreate newID t1 t2
  let row := { row with Status := if row.Status = "" then "active" else row.Status }
  match fault with
  | some err => .error (.wrap "error creating escrow" err)
  | none =>
    if db.escrows.any (fun e => e.ID = row.ID) then
      .error (.wrap "error creating escrow" duplicateKey)
    else .ok { db with escrows := db.escrows ++ [row] }

/-- Method `GormMilestoneRepository.Create`: hook, then `INSERT` (`Status` defaults to
`pending`). -/
def GormMilestoneRepository.Create (db : DB) (fault : Option GoError) (newID : UUID)
    (t1 t2 : Time) (milestone : Milestone) : Except GoError DB :=
  let row := milestone.BeforeCreate newID t1 t2
  let row := { row with Status := if row.Status = "" then "pending" else row.Status }
  match fault with
  | some err => .error (.wrap "error creating milestone" err)
  | none =>
    if db.milestones.any (fun m => m.ID = row.ID) then
      .error (.wrap "error creating milestone" duplicateKey)
    else .ok { db with milestones := db.milestones ++ [row] }

/-- Method `GormReleaseConditionRepository.MarkAsMet`: `UPDATE ... SET is_met = true,
verified_at = now, verified_by = ? WHERE id = ?`. -/
def GormReleaseConditionRepository.MarkAsMet (db : DB) (fault : Option GoError) (now : Time)
    (id : UUID) (verifiedBy : String) : Except GoError DB :=
  match fault with
  | some err => .error (.wrap "error marking release condition as met" err)
  | none =>
    .ok { db with releaseConditions :=
            db.releaseConditions.map (fun c =>
              if c.ID = id then { c with IsMet := true, VerifiedAt := now, VerifiedBy := verifiedBy }
              else c) }

/-- Method `GormDisputeRepository.Create`: the `BeforeCreate` hook, then the `INSERT`
(`Status` defaults to `open`).  The statement contains no condition on the disputes
already stored. -/
def GormDisputeRepository.Create (db : DB) (fault : Option GoError) (newID : UUID)
    (t1 t2 : Time) (dispute : Dispute) : Except GoError DB :=
  let row := dispute.BeforeCreate newID t1 t2
  let row := { row with Status := if row.Status = "" then "open" else row.Status }
  match fault with
  | some err => .error (.wrap "error creating dispute" err)
  | none =>
    if db.disputes.any (fun d => d.ID = row.ID) then
      .error (.wrap "error creating dispute" duplicateKey)
    else .ok { db with disputes := db.disputes ++ [row] }

/-- The open disputes stored for milestone `milestoneID`. -/
def openDisputes (db : DB) (milestoneID : UUID) : List Dispute :=
  db.disputes.filter (fun d => d.MilestoneID = milestoneID ∧ d.Status = "open")

/-- The release conditions stored for milestone `milestoneID`. -/
def conditionsOf (db : DB) (milestoneID : UUID) : List ReleaseCondition :=
  db.releaseConditions.filter (fun c => c.MilestoneID = milestoneID)

end Repository

/-- A ledger-client method invoked by a handler, with its arguments. -/
inductive LedgerCall where
  | createEscrow (clientAddress providerAddress amount : String)
  | releaseFunds (contractID : String) (milestoneID : Nat) (amount : String)
  | getChainInfo
  | getBalance (address : String)
  deriving DecidableEq, Repr

/-- Whether the call is a release of funds. -/
def LedgerCall.isRelease : LedgerCall → Bool
  | .releaseFunds _ _ _ => true
  | _ => false

/-- What a handler did: the response it wrote and the ledger-client calls it made, in
order. -/
structure Handled where
  resp : Response
  ledger : List LedgerCall
  deriving DecidableEq, Repr

/-- The JSON body of `POST /escrows`, as the request struct of the persistence-backed
`CreateEscrow` decodes it. -/
structure CreateEscrowRequest where
  Title : String
  Description : String
  ClientAddress : String
  ProviderAddress : String
  TotalAmount : String
  Milestones : List Models.MilestoneCreate
  TokenAddress : String
  deriving DecidableEq, Repr

/-! ## Routed handlers (`src/backend/internal/api/handlers.go`) -/

namespace Backend

/-- The JSON object sent to `POST /escrows/:id/release`. -/
structure ReleaseBody where
  milestoneId : Nat
  amount : String
  deriving DecidableEq, Repr

/-- The handler-local `ReleaseRequest` struct. -/
structure ReleaseRequest where
  milestoneId : Nat
  amount : String
  deriving DecidableEq, Repr

/-- `c.ShouldBindJSON(&request)` for `ReleaseRequest`.  Both fields of the struct are
unexported (lowercase): `encoding/json` never assigns them and the validator skips them,
so after a successful decode they still hold their zero values. -/
def bindReleaseRequest (body : Except GoError ReleaseBody) : Except GoError ReleaseRequest :=
  match body with
  | .error e => .error e
  | .ok _ => .ok { milestoneId := 0, amount := "" }

/-- Handler `ReleaseEscrow`.  `body` is the result of decoding the request body as JSON
(`.error` when it is not a JSON object); `client` is `blockchain.GetClient()`. -/
def ReleaseEscrow (client : Option Blockchain.Client) (escrowID : String)
    (body : Except GoError ReleaseBody) : Handled :=
  match bindReleaseRequest body with
  | .error e =>
      { resp := { status := StatusBadRequest, body := [("error", .errText e)] }, ledger := [] }
  | .ok request =>
    match client with
    | none =>
        { resp := { status := StatusInternalServerError,
                    body := [("error", .str "Blockchain client not initialized")] },
          ledger := [] }
    | some cl =>
      match cl.ReleaseFunds escrowID request.milestoneId request.amount with
      | .error err =>
          { resp := { status := StatusInternalServerError,
                      body := [("error", .errorf "Failed to release funds" err)] },
            ledger := [.releaseFunds escrowID request.milestoneId request.amount] }
      | .ok _ =>
          { resp := { status := StatusOK,
                      body := [("message", .str "Successfully released funds from escrow"),
                               ("escrowId", .str escrowID),
                               ("milestoneId", .nat request.milestoneId),
                               ("amount", .str request.amount)] },
            ledger := [.releaseFunds escrowID request.milestoneId request.amount] }

/-- The JSON object sent to `POST .../conditions`: fields `type` and `data`. -/
structure ConditionBody where
  type : String
  data : String
  deriving DecidableEq, Repr

/-- `c.ShouldBindJSON(&request)` for the `AddReleaseCondition` request: both fields are
exported and tagged `binding:"required"`, which rejects the empty string. -/
def bindConditionRequest (body : Except GoError ConditionBody) : Except GoError ConditionBody :=
  match body with
  | .error e => .error e
  | .ok b =>
    let failures :=
      (if b.type = "" then [("Type", "required")] else [])
        ++ (if b.data = "" then [("Data", "required")] else [])
    if failures = [] then .ok b else .error (.validation failures)

/-- Handler `AddReleaseCondition`. -/
def AddReleaseCondition (escrowId milestoneId : String)
    (body : Except GoError ConditionBody) : Handled :=
  match bindConditionRequest body with
  | .error e =>
      { resp := { status := StatusBadRequest, body := [("error", .errText e)] }, ledger := [] }
  | .ok request =>
    if request.type = "third_party" ∨ request.type = "time_based" ∨ request.type = "oracle" then
      { resp := { status := StatusCreated,
                  body := [("message", .str ("This endpoint will add a release condition for milestone "
                              ++ milestoneId ++ " in escrow " ++ escrowId)),
                           ("type", .str request.type),
                           ("data", .str request.data)] },
        ledger := [] }
    else
      { resp := { status := StatusBadRequest, body := [("error", .str "Invalid condition type")] },
        ledger := [] }

/-- Handler `CreateEscrow` of the routed API: it reads nothing from the request (here
its decoded body) and answers 201 with a fixed message. -/
def CreateEscrow (_body : Except GoError CreateEscrowRequest) : Handled :=
  { resp := { status := StatusCreated,
              body := [("message", .str "This endpoint will create a new escrow")] },
    ledger := [] }

/-- Handler `UpdateEscrow` of the routed API. -/
def UpdateEscrow (id : String) : Handled :=
  { resp := { status := StatusOK,
              body := [("message", .str ("This endpoint will update the escrow with ID " ++ id))] },
    ledger := [] }

/-- Handler `DeleteEscrow` of the routed API. -/
def DeleteEscrow (id : String) : Handled :=
  { resp := { status := StatusOK,
              body := [("message", .str ("This endpoint will delete the escrow with ID " ++ id))] },
    ledger := [] }

/-- Handler `CancelEscrow` of the routed API. -/
def CancelEscrow (id : String) : Handled :=
  { resp := { status := StatusOK,
              body := [("message", .str ("This endpoint will cancel the escrow with ID " ++ id))] },
    ledger := [] }

/-- The address `GetEscrows` uses for every request (`userAddress`). -/
def userAddress : String := "5GrwvaEF5zXb26Fz9rcQpDWS57CtERHpNehXCPcNoHGKutQY"

/-- The simulated escrow list of `GetEscrows`; `now1` and `now2` are the Unix seconds of
the two `time.Now()` readings. -/
def simulatedEscrows (now1 now2 : Int) : List (List (String × JScalar)) :=
  [ [ ("id", .str "contract-id-1"), ("title", .str "Website Redesign"),
      ("client", .str "5GrwvaEF5zXb26Fz9rcQpDWS57CtERHpNehXCPcNoHGKutQY"),
      ("provider", .str "5FHneW46xGXgs5mUiveU4sbTyGBzmstUspZC92UhjJM694ty"),
      ("amount", .str "1000000000000000000"), ("status", .str "active"),
      ("milestonesCount", .int 3), ("createdAt", .int (now1 - 86400)) ],
    [ ("id", .str "contract-id-2"), ("title", .str "Mobile App Development"),
      ("client", .str "5GrwvaEF5zXb26Fz9rcQpDWS57CtERHpNehXCPcNoHGKutQY"),
      ("provider", .str "5FLSigC9HGRKVhB9FiEo4Y3koPsNmBmLJbpXg2mp1hXcS59Y"),
      ("amount", .str "2500000000000000000"), ("status", .str "active"),
      ("milestonesCount", .int 5), ("createdAt", .int (now2 - 172800)) ] ]

/-- Handler `GetEscrows`: client nil check, `GetChainInfo`, `GetBalance` of the fixed
`userAddress`, then the simulated escrow list. -/
def GetEscrows (client : Option Blockchain.Client) (now1 now2 : Int) : Handled :=
  match client with
  | none =>
      { resp := { status := StatusInternalServerError,
                  body := [("error", .str "Blockchain client not initialized")] },
        ledger := [] }
  | some cl =>
    match cl.GetChainInfo with
    | .error err =>
        { resp := { status := StatusInternalServerError,
                    body := [("error", .errorf "Failed to get blockchain info" err)] },
          ledger := [.getChainInfo] }
    | .ok chainInfo =>
      match cl.GetBalance userAddress with
      | (_, some err) =>
          { resp := { status := StatusInternalServerError,
                      body := [("error", .errorf "Failed to get balance" err)] },
            ledger := [.getChainInfo, .getBalance userAddress] }
      | (balance, none) =>
          { resp := { status := StatusOK,
                      body := [("escrows", .records (simulatedEscrows now1 now2)),
                               ("balance", .str balance),
                               ("chain", .str chainInfo.chain),
                               ("network", .str chainInfo.version)] },
            ledger := [.getChainInfo, .getBalance userAddress] }

/-- Handler `CreateDispute` of the routed API: it answers 201 with a fixed message. -/
def CreateDispute (id : String) : Handled :=
  { resp := { status := StatusCreated,
              body := [("message", .str ("This endpoint will create a dispute for escrow with ID "
                          ++ id))] },
    ledger := [] }

/-- The JSON object sent to `POST .../conditions/:conditionId/verify`. -/
structure VerifyBody where
  verificationData : String
  deriving DecidableEq, Repr

/-- Handler `VerifyReleaseCondition`: it binds the body (no field is required) and
answers 200 with a fixed message; it calls neither the ledger client nor a repository. -/
def VerifyReleaseCondition (escrowId milestoneId conditionId : String)
    (body : Except GoError VerifyBody) : Handled :=
  match body with
  | .error e =>
      { resp := { status := StatusBadRequest, body := [("error", .errText e)] }, ledger := [] }
  | .ok _ =>
      { resp := { status := StatusOK,
                  body := [("message", .str ("This endpoint will verify condition " ++ conditionId
                              ++ " for milestone " ++ milestoneId ++ " in escrow " ++ escrowId))] },
        ledger := [] }

/-- The JSON object sent to `POST .../request-modification`: each field is a pointer in
the request struct, `none` when the key is absent or `null`. -/
structure ModificationBody where
  Title : Option String
  Description : Option String
  Deadline : Option Int
  deriving DecidableEq, Repr

/-- Handler `RequestMilestoneModification`. -/
def RequestMilestoneModification (escrowId milestoneId : String)
    (body : Except GoError ModificationBody) : Handled :=
  match body with
  | .error e =>
      { resp := { status := StatusBadRequest, body := [("error", .errText e)] }, ledger := [] }
  | .ok request =>
    if request.Title = none ∧ request.Description = none ∧ request.Deadline = none then
      { resp := { status := StatusBadRequest,
                  body := [("error", .str "At least one field must be modified")] },
        ledger := [] }
    else
      { resp := { status := StatusOK,
                  body := [("message", .str ("This endpoint will request modification for milestone "
                              ++ milestoneId ++ " in escrow " ++ escrowId))] },
        ledger := [] }

/-- A request to one of the escrow routes that `RegisterRoutes` binds (`routes.go`):
`POST /escrows`, `PUT /escrows/:id`, `DELETE /escrows/:id`, `POST /escrows/:id/release`
and `POST /escrows/:id/cancel`. -/
inductive EscrowRequest where
  | create (body : Except GoError CreateEscrowRequest)
  | update (id : String)
  | delete (id : String)
  | release (id : String) (body : Except GoError ReleaseBody)
  | cancel (id : String)

/-- Serving one escrow request: what the handler bound to the route did, and the store
(the tables behind the package variable `database.DB`) afterwards.  None of the five
handlers refers to `database.DB`, to `database.GetDB` or to a repository, so the store
is returned as it was given. -/
def serve (client : Option Blockchain.Client) (db : Repository.DB) :
    EscrowRequest → Handled × Repository.DB
  | .create body => (CreateEscrow body, db)
  | .update id => (UpdateEscrow id, db)
  | .delete id => (DeleteEscrow id, db)
  | .release id body => (ReleaseEscrow client id body, db)
  | .cancel id => (CancelEscrow id, db)

end Backend

/-! ## Persistence-backed handlers (`src/internal/api/handlers.go`) -/

namespace Internal

open Models Repository

/-- The `(field, tag)` pairs the validator reports for the request struct of
`CreateEscrow`: the `required` fields must be non-empty and `Milestones` must hold at
least one element (`required,min=1`).  The tag of `Milestones` has no `dive`, so the
tags inside `MilestoneCreate` are not evaluated. -/
def bindFailures (r : CreateEscrowRequest) : List (String × String) :=
  (if r.Title = "" then [("Title", "required")] else [])
    ++ (if r.ClientAddress = "" then [("ClientAddress", "required")] else [])
    ++ (if r.ProviderAddress = "" then [("ProviderAddress", "required")] else [])
    ++ (if r.TotalAmount = "" then [("TotalAmount", "required")] else [])
    ++ (if r.Milestones = [] then [("Milestones", "min")] else [])
    ++ (if r.TokenAddress = "" then [("TokenAddress", "required")] else [])

/-- `c.ShouldBindJSON(&request)` for `CreateEscrow`: the decoding error, the validation
error, or the request. -/
def bindCreateEscrow (body : Except GoError CreateEscrowRequest) :
    Except GoError CreateEscrowRequest :=
  match body with
  | .error e => .error e
  | .ok r => if bindFailures r = [] then .ok r else .error (.validation (bindFailures r))

/-- The loop `for _, m := range request.Milestones { totalPercentage += m.Percentage }`
starting from the zero value of `float64`. -/
def totalPercentage (ms : List MilestoneCreate) : F64 :=
  ms.foldl (fun acc m => F64.add acc m.Percentage) (.fin false 0 0)

/-- What `CreateEscrow` obtains from outside while it runs. -/
structure CreateEnv where
  /-- The value `blockchain.GetClient()`. -/
  client : Option Blockchain.Client
  /-- The value `tx.Error` after `Begin()`. -/
  beginErr : Option GoError
  /-- The error of `tx.Commit()`. -/
  commitErr : Option GoError
  /-- The `uuid.New()` of the escrow. -/
  escrowID : UUID
  /-- The clock readings of the escrow hook. -/
  escrowTimes : Time × Time
  /-- A driver failure of the escrow `INSERT`. -/
  escrowFault : Option GoError
  /-- The `uuid.New()` of milestone `i`. -/
  milestoneID : Nat → UUID
  /-- The clock readings of the hook of milestone `i`. -/
  milestoneTimes : Nat → Time × Time
  /-- A driver failure of the `INSERT` of milestone `i`. -/
  milestoneFault : Nat → Option GoError

/-- The amount text of a milestone:
`fmt.Sprintf("%f", totalAmountFloat * (m.Percentage / 100))` with
`totalAmountFloat, _ := strconv.ParseFloat(request.TotalAmount, 64)`. -/
def milestoneAmount (totalAmount : String) (percentage : F64) : String :=
  let totalAmountFloat := parseFloat totalAmount
  let amount := F64.mul totalAmountFloat (F64.div percentage (F64.ofNat 100))
  F64.sprintF amount

/-- The milestone row built for element `m` of the request. -/
def newMilestone (id escrowID : UUID) (totalAmount : String) (m : MilestoneCreate) : Milestone :=
  { ID := id, EscrowID := escrowID, Title := m.Title, Description := m.Description,
    Percentage := m.Percentage, Amount := milestoneAmount totalAmount m.Percentage,
    Status := "pending", CreatedAt := 0, UpdatedAt := 0, DeadlineAt := m.DeadlineAt,
    CompletedAt := 0, EvidenceHash := "", EvidenceLink := "", EvidenceAddedAt := 0,
    ModificationRequested := false, ModificationApproved := false,
    ModificationRequestedBy := "", ModificationRequestedAt := 0 }

/-- The loop `for i, m := range request.Milestones` of the transaction callback, from
index `i` on. -/
def createMilestones (env : CreateEnv) (escrowID : UUID) (totalAmount : String) :
    Nat → List MilestoneCreate → DB → FnResult
  | _, [], db => .returned none db
  | i, m :: ms, db =>
    let milestone := newMilestone (env.milestoneID i) escrowID totalAmount m
    match GormMilestoneRepository.Create db (env.milestoneFault i) (env.milestoneID i)
        (env.milestoneTimes i).1 (env.milestoneTimes i).2 milestone with
    | .error err => .returned (some (.wrap ("failed to create milestone " ++ toString i) err)) db
    | .ok db1 => createMilestones env escrowID totalAmount (i + 1) ms db1

/-- The escrow row built from the request. -/
def newEscrow (id : UUID) (request : CreateEscrowRequest) (contractID : String) : Escrow :=
  { ID := id, Title := request.Title, Description := request.Description,
    ClientAddress := request.ClientAddress, ClientName := "",
    ProviderAddress := request.ProviderAddress, ProviderName := "",
    TotalAmount := request.TotalAmount, ReleasedAmount := "0",
    RemainingAmount := request.TotalAmount, Status := "active",
    CreatedAt := 0, UpdatedAt := 0, DeadlineAt := 0,
    ContractID := contractID, TokenAddress := request.TokenAddress }

/-- The callback passed to `repository.Transaction`: create the escrow row, then one
milestone row per element of the request. -/
def createEscrowTx (env : CreateEnv) (request : CreateEscrowRequest) (contractID : String)
    (db : DB) : FnResult :=
  let escrow := newEscrow env.escrowID request contractID
  match GormEscrowRepository.Create db env.escrowFault env.escrowID
      env.escrowTimes.1 env.escrowTimes.2 escrow with
  | .error err => .returned (some (.wrap "failed to create escrow" err)) db
  | .ok db1 =>
    createMilestones env (escrow.BeforeCreate env.escrowID env.escrowTimes.1 env.escrowTimes.2).ID
      request.TotalAmount 0 request.Milestones db1

/-- What `CreateEscrow` did: response, ledger calls, database afterwards and the events
of the store transaction. -/
structure CreateResult where
  resp : Response
  ledger : List LedgerCall
  db : DB
  tx : List TxEvent
  deriving DecidableEq, Repr

/-- Handler `CreateEscrow`: binding, the percentage check, the ledger call, then the
store transaction.  A panic inside the transaction is answered by the recovery
middleware with status 500. -/
def CreateEscrow (env : CreateEnv) (db : DB) (body : Except GoError CreateEscrowRequest) :
    CreateResult :=
  match bindCreateEscrow body with
  | .error e =>
      { resp := { status := StatusBadRequest, body := [("error", .errText e)] },
        ledger := [], db := db, tx := [] }
  | .ok request =>
    if F64.ne (totalPercentage request.Milestones) (F64.ofNat 100) then
      { resp := { status := StatusBadRequest,
                  body := [("error", .str "Milestone percentages must add up to 100%")] },
        ledger := [], db := db, tx := [] }
    else
      match env.client with
      | none =>
          { resp := { status := StatusInternalServerError,
                      body := [("error", .str "Blockchain client not initialized")] },
            ledger := [], db := db, tx := [] }
      | some client =>
        let call := LedgerCall.createEscrow request.ClientAddress request.ProviderAddress
          request.TotalAmount
        match client.CreateEscrow request.ClientAddress request.ProviderAddress
            request.TotalAmount with
        | .error err =>
            { resp := { status := StatusInternalServerError,
                        body := [("error", .errorf "Failed to create blockchain escrow" err)] },
              ledger := [call], db := db, tx := [] }
        | .ok contractID =>
          let t := Transaction db env.beginErr env.commitErr (createEscrowTx env request contractID)
          match t.ret with
          | .nil =>
              { resp := { status := StatusCreated,
                          body := [("message", .str "Escrow created successfully"),
                                   ("contractId", .str contractID)] },
                ledger := [call], db := t.db, tx := t.log }
          | .err err =>
              { resp := { status := StatusInternalServerError,
                          body := [("error", .errorf "Failed to create escrow" err)] },
                ledger := [call], db := t.db, tx := t.log }
          | .panic _ =>
              { resp := { status := StatusInternalServerError, body := [] },
                ledger := [call], db := t.db, tx := t.log }

end Internal

/-! ## Concurrent calls of `ReleaseFunds` -/

namespace Concurrent

open Blockchain

/-- The arguments of one `ReleaseFunds` call. -/
structure ReleaseArgs where
  contractID : String
  milestoneID : Nat
  amount : String
  deriving DecidableEq, Repr

/-- Where a goroutine that runs `ReleaseFunds` stands: before `mutex.Lock()`, after it,
after the nil check (before the logged release), before the deferred `mutex.Unlock()`,
and after it. -/
inductive Pc where
  | waiting
  | holding
  | releasing
  | returning
  | done
  deriving DecidableEq, Repr

/-- The goroutine is between `mutex.Lock()` and `mutex.Unlock()`. -/
def Pc.critical : Pc → Bool
  | .holding => true
  | .releasing => true
  | .returning => true
  | _ => false

/-- Two goroutines, each running one `ReleaseFunds` call on the same client: the
package-level `mutex`, the two program points, the value each call is about to return,
and the releases performed so far, in order. -/
structure State where
  held : Bool
  pc1 : Pc
  pc2 : Pc
  res1 : Option (Except GoError Unit)
  res2 : Option (Except GoError Unit)
  log : List LedgerCall
  deriving DecidableEq, Repr

/-- Both goroutines are about to call `ReleaseFunds`. -/
def State.init : State :=
  { held := false, pc1 := .waiting, pc2 := .waiting, res1 := none, res2 := none, log := [] }

/-- What one goroutine does next, given the mutex and its program point: the new program
point, the mutex afterwards, the value to return if it is now fixed, and the release it
performed.  `none` when the goroutine cannot move: it is blocked in `mutex.Lock()` or it
has returned. -/
def next (c : Client) (a : ReleaseArgs) (held : Bool) :
    Pc → Option (Pc × Bool × Option (Except GoError Unit) × List LedgerCall)
  | .waiting => if held then none else some (.holding, true, none, [])
  | .holding =>
    match c.api with
    | none => some (.returning, held, some (.error (.new "blockchain client not initialized")), [])
    | some _ => some (.releasing, held, none, [])
  | .releasing =>
      some (.returning, held, some (.ok ()), [.releaseFunds a.contractID a.milestoneID a.amount])
  | .returning => some (.done, false, none, [])
  | .done => none

/-- The scheduler lets goroutine 1 (`first = true`) or goroutine 2 move; a goroutine that
cannot move leaves the state as it is. -/
def step (c : Client) (a1 a2 : ReleaseArgs) (s : State) (first : Bool) : State :=
  if first then
    match next c a1 s.held s.pc1 with
    | none => s
    | some (pc, held, res, out) =>
        { s with pc1 := pc, held := held, res1 := res.orElse (fun _ => s.res1),
                 log := s.log ++ out }
  else
    match next c a2 s.held s.pc2 with
    | none => s
    | some (pc, held, res, out) =>
        { s with pc2 := pc, held := held, res2 := res.orElse (fun _ => s.res2),
                 log := s.log ++ out }

/-- The state after the scheduler's choices, in order. -/
def run (c : Client) (a1 a2 : ReleaseArgs) (schedule : List Bool) : State :=
  schedule.foldl (step c a1 a2) State.init

/-- The releases one call performs when it runs alone. -/
def releasesOf (c : Client) (a : ReleaseArgs) : List LedgerCall :=
  match c.ReleaseFunds a.contractID a.milestoneID a.amount with
  | .ok _ => [.releaseFunds a.contractID a.milestoneID a.amount]
  | .error _ => []

/-- The releases performed when the calls run one after the other. -/
def sequentialLog (c : Client) (calls : List ReleaseArgs) : List LedgerCall :=
  calls.flatMap (releasesOf c)

/-- The releases a goroutine has performed when it stands at `pc`. -/
def contribution (c : Client) (a : ReleaseArgs) : Pc → List LedgerCall
  | .returning => releasesOf c a
  | .done => releasesOf c a
  | _ => []

/-- The facts that hold in every state the scheduler can reach. -/
def Inv (c : Client) (a1 a2 : ReleaseArgs) (s : State) : Prop :=
  s.held = (s.pc1.critical || s.pc2.critical)
  ∧ ¬ (s.pc1.critical = true ∧ s.pc2.critical = true)
  ∧ (s.pc1 = .releasing → c.api ≠ none) ∧ (s.pc2 = .releasing → c.api ≠ none)
  ∧ ((s.pc1 = .returning ∨ s.pc1 = .done) →
      s.res1 = some (c.ReleaseFunds a1.contractID a1.milestoneID a1.amount))
  ∧ ((s.pc2 = .returning ∨ s.pc2 = .done) →
      s.res2 = some (c.ReleaseFunds a2.contractID a2.milestoneID a2.amount))
  ∧ (s.log = contribution c a1 s.pc1 ++ contribution c a2 s.pc2
      ∨ s.log = contribution c a2 s.pc2 ++ contribution c a1 s.pc1)

end Concurrent

/-! ## Sample inputs -/

namespace Sample

open Models Repository Internal

/-- A node that answers every query. -/
def api : Blockchain.SubstrateAPI :=
  { getMetadataLatest := .ok (), createStorageKey := .ok (), getStorageLatest := .ok true,
    systemChain := .ok "Development", systemVersion := .ok "1.0.0",
    systemProperties := .ok "tokenSymbol: DOT", freeBalance := "1000000000000" }

/-- An initialised client whose public key is 32 bytes of `7`. -/
def client : Blockchain.Client := { api := some api, publicKey := List.replicate 32 7 }

/-- The contract id the sample client reports. -/
def contractID : String := "0x0707070707070707"

/-- An environment in which every external step succeeds. -/
def env : CreateEnv :=
  { client := some client, beginErr := none, commitErr := none,
    escrowID := 1, escrowTimes := (10, 10), escrowFault := none,
    milestoneID := fun i => 100 + i, milestoneTimes := fun _ => (11, 11),
    milestoneFault := fun _ => none }

/-- A milestone of `p` percent. -/
def milestone (p : Nat) : MilestoneCreate :=
  { Title := "m", Description := "", Percentage := F64.ofNat p, DeadlineAt := 0 }

/-- A creation request for `total` units split by the given percentages. -/
def request (total : String) (ps : List Nat) : CreateEscrowRequest :=
  { Title := "t", Description := "", ClientAddress := "0x01", ProviderAddress := "0x02",
    TotalAmount := total, Milestones := ps.map milestone, TokenAddress := "tok" }

/-- A release condition that has been verified. -/
def metCondition : ReleaseCondition :=
  { ID := 7, MilestoneID := 3, Type_ := "oracle", ConditionData := "feed", IsMet := true,
    VerifiedAt := 20, VerifiedBy := "0x01", CreatedAt := 5 }

/-- A pending milestone with id 3. -/
def milestoneRow : Milestone :=
  { ID := 3, EscrowID := 1, Title := "design", Description := "", Percentage := F64.ofNat 30,
    Amount := "300.000000", Status := "pending", CreatedAt := 11, UpdatedAt := 11,
    DeadlineAt := 0, CompletedAt := 0, EvidenceHash := "", EvidenceLink := "",
    EvidenceAddedAt := 0, ModificationRequested := false, ModificationApproved := false,
    ModificationRequestedBy := "", ModificationRequestedAt := 0 }

/-- Milestone 3 with two conditions: condition 7 is met, condition 8 is not. -/
def twoConditionsDB : DB :=
  { DB.empty with
    milestones := [milestoneRow]
    releaseConditions :=
      [ metCondition,
        { ID := 8, MilestoneID := 3, Type_ := "third_party", ConditionData := "auditor",
          IsMet := false, VerifiedAt := 0, VerifiedBy := "", CreatedAt := 6 } ] }

/-- An open dispute on milestone 3. -/
def openDispute : Dispute :=
  { ID := 21, EscrowID := 1, MilestoneID := 3, InitiatorAddress := "0x01", Title := "late",
    Description := "delivery is late", Status := "open", Resolution := "", CreatedAt := 12,
    UpdatedAt := 12, ResolvedAt := 0 }

/-- A message of dispute 21. -/
def message : DisputeMessage :=
  { ID := 31, DisputeID := 21, Address := "0x02", Message := "work was delivered",
    CreatedAt := 13 }

/-- A database holding `openDispute` and its message. -/
def disputeDB : DB := { DB.empty with disputes := [openDispute], disputeMessages := [message] }

/-- Two releases on the same contract. -/
def release1 : Concurrent.ReleaseArgs := { contractID := "c", milestoneID := 1, amount := "300" }

/-- The second release. -/
def release2 : Concurrent.ReleaseArgs := { contractID := "c", milestoneID := 2, amount := "400" }

/-- A schedule that alternates between the two goroutines until both have returned. -/
def schedule : List Bool :=
  [true, false, true, false, true, false, true, false, false, false, false]

/-- A configuration of the ledger client. -/
def config : Blockchain.Config :=
  { PolkadotRPCURL := "ws://localhost:9944", PolkadotKeypairSeed := "//Alice",
    PolkadotNetworkID := 42, EscrowContractAddress := "", EscrowContractConstructor := "new" }

end Sample

/-! # Properties -/

set_option maxRecDepth 8000

/-! ## Helper lemmas -/

/-- A successful binding returns the decoded request, whose milestone list is not empty. -/
theorem Internal.bindCreateEscrow_ok {body : Except GoError CreateEscrowRequest}
    {r : CreateEscrowRequest} (h : Internal.bindCreateEscrow body = .ok r) :
    body = .ok r ∧ r.Milestones ≠ [] := by
  unfold Internal.bindCreateEscrow at h
  cases body with
  | error e => simp at h
  | ok b =>
    by_cases hf : Internal.bindFailures b = []
    · simp only [hf, if_true] at h
      injection h with h
      subst h
      refine ⟨rfl, ?_⟩
      intro hm
      simp [Internal.bindFailures, hm] at hf
    · simp [hf] at h

/-- A value equal to one positive constant differs from every other constant of the same
exponent. -/
theorem F64.eq_const_exclusive (x : F64) (m₁ m₂ : Nat) (q : Int) (hm : m₁ ≠ m₂)
    (h : F64.eq x (.fin false m₁ q) = true) : F64.eq x (.fin false m₂ q) = false := by
  cases x with
  | nan => rfl
  | inf a => rfl
  | fin n m e =>
    simp only [F64.eq, Bool.and_eq_true, beq_iff_eq, Bool.or_eq_true] at h
    simp only [F64.eq, Bool.and_eq_false_iff, beq_eq_false_iff_ne, Bool.or_eq_false_iff]
    left
    rw [h.1]
    intro hc
    have hpos : 0 < 2 ^ (q - min e q).toNat := Nat.two_pow_pos _
    exact hm (Nat.eq_of_mul_eq_mul_right hpos hc)

/-- The constants 99, 100 and 101 as binary64 values. -/
theorem F64.ofNat_99 : F64.ofNat 99 = .fin false 6966505673588736 (-46) := by decide

theorem F64.ofNat_100 : F64.ofNat 100 = .fin false 7036874417766400 (-46) := by decide

theorem F64.ofNat_101 : F64.ofNat 101 = .fin false 7107243161944064 (-46) := by decide

section HexLemmas

open Blockchain

/-- `fromHexChar` knows exactly the hexadecimal digits. -/
theorem Blockchain.fromHexChar_isSome (c : Char) :
    (fromHexChar c).isSome = isHexDigit c := by
  unfold fromHexChar isHexDigit
  by_cases h1 : '0' ≤ c ∧ c ≤ '9'
  · simp [h1]
  · by_cases h2 : 'a' ≤ c ∧ c ≤ 'f'
    · simp [h1, h2]
    · by_cases h3 : 'A' ≤ c ∧ c ≤ 'F'
      · simp [h1, h2, h3]
      · simp [h1, h2, h3]

/-- `hex.DecodeString` succeeds exactly on an even number of hexadecimal digits. -/
theorem Blockchain.hexDecodeString_ok_iff :
    ∀ cs : List Char, (∃ bs, hexDecodeString cs = .ok bs) ↔
      (cs.length % 2 = 0 ∧ ∀ c ∈ cs, isHexDigit c = true)
  | [] => by simp [hexDecodeString]
  | [p] => by
    cases h : fromHexChar p <;> simp [hexDecodeString, h]
  | p :: q :: rest => by
    have ih := Blockchain.hexDecodeString_ok_iff rest
    have hp := Blockchain.fromHexChar_isSome p
    have hq := Blockchain.fromHexChar_isSome q
    cases h1 : fromHexChar p with
    | none =>
      rw [h1] at hp
      simp [hexDecodeString, h1]
      intro _ hpp
      rw [hpp] at hp
      simp at hp
    | some a =>
      rw [h1] at hp
      cases h2 : fromHexChar q with
      | none =>
        rw [h2] at hq
        simp [hexDecodeString, h1, h2]
        intro _ _ hqq
        rw [hqq] at hq
        simp at hq
      | some b =>
        rw [h2] at hq
        simp only [Option.isSome_some] at hp hq
        cases h3 : hexDecodeString rest with
        | error e =>
          rw [h3] at ih
          simp only [hexDecodeString, h1, h2, h3]
          constructor
          · rintro ⟨bs, hbs⟩
            simp at hbs
          · rintro ⟨hlen, hall⟩
            exfalso
            have : ∃ bs, (Except.error e : Except GoError (List Nat)) = .ok bs := by
              apply ih.mpr
              refine ⟨?_, fun c hc => hall c (by simp [hc])⟩
              simp only [List.length_cons] at hlen
              omega
            obtain ⟨bs, hbs⟩ := this
            simp at hbs
        | ok bs =>
          rw [h3] at ih
          simp only [hexDecodeString, h1, h2, h3]
          have := ih.mp ⟨bs, rfl⟩
          constructor
          · intro _
            refine ⟨?_, ?_⟩
            · simp only [List.length_cons]
              omega
            · intro c hc
              simp only [List.mem_cons] at hc
              rcases hc with rfl | rfl | hc
              · exact hp.symm
              · exact hq.symm
              · exact this.2 c hc
          · intro _
            exact ⟨_, rfl⟩

/-- Two characters are decoded into one byte. -/
theorem Blockchain.hexDecodeString_length :
    ∀ (cs : List Char) (bs : List Nat), hexDecodeString cs = .ok bs → bs.length * 2 = cs.length
  | [], bs, h => by
    simp [hexDecodeString] at h
    simp [← h]
  | [p], bs, h => by
    cases h1 : fromHexChar p <;> simp [hexDecodeString, h1] at h
  | p :: q :: rest, bs, h => by
    cases h1 : fromHexChar p with
    | none => simp [hexDecodeString, h1] at h
    | some a =>
      cases h2 : fromHexChar q with
      | none => simp [hexDecodeString, h1, h2] at h
      | some b =>
        cases h3 : hexDecodeString rest with
        | error e => simp [hexDecodeString, h1, h2, h3] at h
        | ok bs' =>
          simp [hexDecodeString, h1, h2, h3] at h
          have := Blockchain.hexDecodeString_length rest bs' h3
          rw [← h]
          simp only [List.length_cons]
          omega

/-- `hexDecodeAddress` decodes the text without its `0x` prefix and fits the bytes. -/
theorem Blockchain.hexDecodeAddress_eq (s : String) :
    hexDecodeAddress s =
      match hexDecodeString (withoutHexPrefix s.data) with
      | .error err => .error (.wrap "invalid address format" err)
      | .ok bytes =>
        .ok (if bytes.length ≠ 32 then
              if bytes.length < 32 then List.replicate (32 - bytes.length) 0 ++ bytes
              else bytes.take 32
            else bytes) := by
  rfl

/-- Leading zero bytes do not change the big-endian value. -/
theorem Blockchain.bigEndianValue_zeros (k : Nat) (bs : List Nat) :
    bigEndianValue (List.replicate k 0 ++ bs) = bigEndianValue bs := by
  unfold bigEndianValue
  rw [List.foldl_append]
  congr 1
  induction k with
  | zero => rfl
  | succ k ih => simpa [List.replicate_succ] using ih

end HexLemmas

section ConcurrentLemmas

open Concurrent Blockchain

/-- The invariant holds initially. -/
theorem Concurrent.inv_init (c : Client) (a1 a2 : ReleaseArgs) : Inv c a1 a2 State.init := by
  simp [Inv, State.init, Pc.critical, contribution]

/-- Every move of either goroutine keeps the invariant. -/
theorem Concurrent.inv_step (c : Client) (a1 a2 : ReleaseArgs) (s : State) (first : Bool)
    (h : Inv c a1 a2 s) : Inv c a1 a2 (step c a1 a2 s first) := by
  obtain ⟨held, pc1, pc2, res1, res2, log⟩ := s
  obtain ⟨hheld, hex, hr1, hr2, hres1, hres2, hlog⟩ := h
  simp only at hheld hex hr1 hr2 hres1 hres2 hlog
  cases hapi : c.api with
  | none =>
    cases first <;> cases pc1 <;> cases pc2 <;>
      simp_all [Inv, step, next, Pc.critical, contribution, releasesOf, Client.ReleaseFunds]
  | some api =>
    cases first <;> cases pc1 <;> cases pc2 <;>
      simp_all [Inv, step, next, Pc.critical, contribution, releasesOf, Client.ReleaseFunds]

/-- The invariant holds after every schedule. -/
theorem Concurrent.inv_run (c : Client) (a1 a2 : ReleaseArgs) (schedule : List Bool) :
    Inv c a1 a2 (run c a1 a2 schedule) := by
  have main : ∀ (schedule : List Bool) (s : State), Inv c a1 a2 s →
      Inv c a1 a2 (schedule.foldl (step c a1 a2) s) := by
    intro schedule
    induction schedule with
    | nil => intro s h; exact h
    | cons t ts ih => intro s h; exact ih _ (Concurrent.inv_step c a1 a2 s t h)
  exact main schedule State.init (Concurrent.inv_init c a1 a2)

end ConcurrentLemmas

section ClientLemmas

open Blockchain

/-- `Char.isDigit` accepts exactly the characters `0` to `9`. -/
theorem isDigit_eq_isDecimalDigit (c : Char) : c.isDigit = isDecimalDigit c := by
  simp only [Char.isDigit, isDecimalDigit, Char.le_def, Bool.decide_and]
  rfl

/-- `big.Int.SetString` in base 10 accepts exactly the signed decimal texts. -/
theorem bigIntSetString_isSome (s : String) :
    (bigIntSetString s).isSome = isSignedDecimal s := by
  have hall : ∀ ds : List Char, ds.all Char.isDigit = ds.all isDecimalDigit := by
    intro ds
    congr 1
    funext c
    exact isDigit_eq_isDecimalDigit c
  have key : ∀ (neg : Bool) (ds : List Char),
      (if ds ≠ [] ∧ ds.all Char.isDigit = true then
          some (if neg = true then -(decimalValue ds : Int) else (decimalValue ds : Int))
        else none).isSome = (!ds.isEmpty && ds.all isDecimalDigit) := by
    intro neg ds
    rw [hall]
    cases ds with
    | nil => simp
    | cons a t =>
      by_cases h : (a :: t).all isDecimalDigit = true
      · simp [h]
      · simp [h]
  unfold bigIntSetString isSignedDecimal
  cases hs : s.data with
  | nil => simp [splitSign]
  | cons a t =>
    by_cases hp : a = '+'
    · subst hp
      simpa [splitSign] using key false t
    · by_cases hm : a = '-'
      · subst hm
        simpa [splitSign] using key true t
      · have h1 : splitSign (a :: t) = (false, a :: t) := by
          unfold splitSign
          split
          · rename_i heq; injection heq with h _; exact absurd h hm
          · rename_i heq; injection heq with h _; exact absurd h hp
          · rfl
        rw [h1]
        have := key false (a :: t)
        simp only at this ⊢
        rw [this]
        split
        · rename_i heq; injection heq with h _; exact absurd h hp
        · rename_i heq; injection heq with h _; exact absurd h hm
        · rfl

/-- A digit written by `%x` is read back by `encoding/hex`. -/
theorem Blockchain.fromHexChar_hexDigit : ∀ n, n < 16 → fromHexChar (hexDigit n) = some n := by
  decide

/-- The digits written by `%x` are lowercase. -/
theorem Blockchain.hexDigit_lower : ∀ n, n < 16 → hexDigit n ∈ lowerHexDigits := by
  decide

/-- Two digits are written per byte. -/
theorem Blockchain.hexEncode_length (bs : List Nat) : (hexEncode bs).length = 2 * bs.length := by
  induction bs with
  | nil => rfl
  | cons b t ih =>
    simp only [hexEncode, List.flatMap_cons, List.length_append, List.length_cons,
      List.length_nil] at ih ⊢
    omega

/-- Decoding the digits written for a byte sequence gives the sequence back. -/
theorem Blockchain.hexDecode_hexEncode (bs : List Nat) (h : ∀ b ∈ bs, b < 256) :
    hexDecodeString (hexEncode bs) = .ok bs := by
  induction bs with
  | nil => rfl
  | cons b t ih =>
    have hb : b < 256 := h b (by simp)
    have h1 := Blockchain.fromHexChar_hexDigit (b / 16) (by omega)
    have h2 := Blockchain.fromHexChar_hexDigit (b % 16) (by omega)
    have ht := ih (fun x hx => h x (by simp [hx]))
    have : hexEncode (b :: t) = hexDigit (b / 16) :: hexDigit (b % 16) :: hexEncode t := by
      simp [hexEncode]
    rw [this]
    simp only [hexDecodeString, h1, h2, ht]
    congr 2
    omega

/-- Every digit written for a byte sequence is a lowercase hexadecimal digit. -/
theorem Blockchain.hexEncode_lower (bs : List Nat) (h : ∀ b ∈ bs, b < 256) :
    ∀ ch ∈ hexEncode bs, ch ∈ lowerHexDigits := by
  intro ch hch
  simp only [hexEncode, List.mem_flatMap, List.mem_cons, List.mem_singleton] at hch
  obtain ⟨b, hb, hc⟩ := hch
  have hb' := h b hb
  rcases hc with rfl | rfl | hc
  · exact Blockchain.hexDigit_lower _ (by omega)
  · exact Blockchain.hexDigit_lower _ (by omega)
  · simp at hc

/-- The only value `Client.CreateEscrow` returns without error. -/
theorem Blockchain.createEscrow_ok_id {c : Client} {a b amount R : String}
    (h : c.CreateEscrow a b amount = .ok R) :
    R = String.mk (['0', 'x'] ++ hexEncode (c.publicKey.take 8)) := by
  unfold Client.CreateEscrow at h
  cases hapi : c.api with
  | none => simp [hapi] at h
  | some api =>
    simp only [hapi] at h
    cases h1 : hexDecodeAddress a with
    | error e => simp [h1] at h
    | ok x =>
      cases h2 : hexDecodeAddress b with
      | error e => simp [h1, h2] at h
      | ok y =>
        cases h3 : bigIntSetString amount with
        | none => simp [h1, h2, h3] at h
        | some v =>
          cases h4 : api.getMetadataLatest with
          | error e => simp [h1, h2, h3, h4] at h
          | ok _ =>
            cases h5 : api.createStorageKey with
            | error e => simp [h1, h2, h3, h4, h5] at h
            | ok _ =>
              cases h6 : api.getStorageLatest with
              | error e => simp [h1, h2, h3, h4, h5, h6] at h
              | ok _ =>
                simp [h1, h2, h3, h4, h5, h6] at h
                rw [← h]
                rfl

end ClientLemmas

/-! ## CreateEscrow -/

/-- Counterexample to C1: the routed `CreateEscrow` answers 201, not a validation error,
to a request whose three percentages 30, 40 and 29 sum to 99. -/
theorem routed_createEscrow_accepts_sum_99 :
    F64.eq (Internal.totalPercentage (Sample.request "1000" [30, 40, 29]).Milestones)
        (F64.ofNat 99) = true
    ∧ (Backend.CreateEscrow (.ok (Sample.request "1000" [30, 40, 29]))).resp.status
        = StatusCreated
    ∧ (Backend.CreateEscrow (.ok (Sample.request "1000" [30, 40, 29]))).resp.status
        ≠ StatusBadRequest := by
  decide

/-- Claim C1, amended.  The persistence-backed `CreateEscrow` answers 400, with no ledger
call, no transaction and the database untouched, unless the body decodes to a request
with a non-empty milestone list whose percentages, added up by the handler in `float64`,
equal 100; in particular totals of 99 and of 101 are answered 400 without a ledger call.
The routed `CreateEscrow` checks nothing: it answers 201 to every body and makes no
ledger call. -/
theorem createEscrow_validates_percentages (env : Internal.CreateEnv) (db : Repository.DB)
    (body : Except GoError CreateEscrowRequest) :
    ((¬ ∃ r, body = .ok r ∧ r.Milestones ≠ []
          ∧ F64.eq (Internal.totalPercentage r.Milestones) (F64.ofNat 100) = true) →
        (Internal.CreateEscrow env db body).resp.status = StatusBadRequest
        ∧ (Internal.CreateEscrow env db body).ledger = []
        ∧ (Internal.CreateEscrow env db body).db = db
        ∧ (Internal.CreateEscrow env db body).tx = [])
    ∧ (∀ r, body = .ok r →
        (F64.eq (Internal.totalPercentage r.Milestones) (F64.ofNat 99) = true
          ∨ F64.eq (Internal.totalPercentage r.Milestones) (F64.ofNat 101) = true) →
        (Internal.CreateEscrow env db body).resp.status = StatusBadRequest
        ∧ (Internal.CreateEscrow env db body).ledger = [])
    ∧ ((Backend.CreateEscrow body).resp.status = StatusCreated
        ∧ (Backend.CreateEscrow body).ledger = []) := by
  have key : (¬ ∃ r, body = .ok r ∧ r.Milestones ≠ []
          ∧ F64.eq (Internal.totalPercentage r.Milestones) (F64.ofNat 100) = true) →
        (Internal.CreateEscrow env db body).resp.status = StatusBadRequest
        ∧ (Internal.CreateEscrow env db body).ledger = []
        ∧ (Internal.CreateEscrow env db body).db = db
        ∧ (Internal.CreateEscrow env db body).tx = [] := by
    intro h
    cases hb : Internal.bindCreateEscrow body with
    | error e => simp [Internal.CreateEscrow, hb]
    | ok r =>
      obtain ⟨rfl, hne⟩ := Internal.bindCreateEscrow_ok hb
      have hsum : F64.eq (Internal.totalPercentage r.Milestones) (F64.ofNat 100) = false := by
        cases hq : F64.eq (Internal.totalPercentage r.Milestones) (F64.ofNat 100) with
        | false => rfl
        | true => exact absurd ⟨r, rfl, hne, hq⟩ h
      simp [Internal.CreateEscrow, hb, F64.ne, hsum]
  refine ⟨key, ?_, rfl, rfl⟩
  intro r hr hsum
  have h100 : F64.eq (Internal.totalPercentage r.Milestones) (F64.ofNat 100) = false := by
    rw [F64.ofNat_100]
    rcases hsum with h | h
    · rw [F64.ofNat_99] at h
      exact F64.eq_const_exclusive _ _ _ _ (by decide) h
    · rw [F64.ofNat_101] at h
      exact F64.eq_const_exclusive _ _ _ _ (by decide) h
  have := key (by
    rintro ⟨r', hr', _, hq⟩
    rw [hr] at hr'
    injection hr' with hr'
    subst hr'
    rw [h100] at hq
    exact Bool.noConfusion hq)
  exact ⟨this.1, this.2.1⟩

/-- Witness of the amended C1: percentages 30, 40, 29 are answered 400 without a ledger
call. -/
theorem createEscrow_validates_percentages_witness :
    (Internal.CreateEscrow Sample.env Repository.DB.empty
        (.ok (Sample.request "1000" [30, 40, 29]))).resp.status = StatusBadRequest
    ∧ (Internal.CreateEscrow Sample.env Repository.DB.empty
        (.ok (Sample.request "1000" [30, 40, 29]))).ledger = [] :=
  (createEscrow_validates_percentages Sample.env Repository.DB.empty
    (.ok (Sample.request "1000" [30, 40, 29]))).2.1 _ rfl (Or.inl (by decide))

/-- Claim C5.  When a `CreateEscrow` request passes binding and the percentage check and
the ledger call `client.CreateEscrow` returns an error, the persistence-backed handler
answers 500 with that error, begins no transaction and leaves the database, hence every
escrow and milestone table, as it was.  The routed `CreateEscrow` makes no ledger call
at all and leaves the store as it was, for this request as for every other one. -/
theorem createEscrow_ledger_failure_no_store_mutation (env : Internal.CreateEnv)
    (db : Repository.DB) (body : Except GoError CreateEscrowRequest)
    (request : CreateEscrowRequest) (cl : Blockchain.Client) (err : GoError)
    (hbind : Internal.bindCreateEscrow body = .ok request)
    (hsum : F64.ne (Internal.totalPercentage request.Milestones) (F64.ofNat 100) = false)
    (hclient : env.client = some cl)
    (hledger : cl.CreateEscrow request.ClientAddress request.ProviderAddress request.TotalAmount
      = .error err) :
    ((Internal.CreateEscrow env db body).resp
        = { status := StatusInternalServerError,
            body := [("error", .errorf "Failed to create blockchain escrow" err)] }
      ∧ (Internal.CreateEscrow env db body).tx = []
      ∧ (Internal.CreateEscrow env db body).db = db)
    ∧ ((Backend.serve env.client db (.create body)).1.ledger = []
      ∧ (Backend.serve env.client db (.create body)).2 = db) := by
  refine ⟨?_, rfl, rfl⟩
  simp [Internal.CreateEscrow, hbind, hsum, hclient, hledger]

/-- Witness of C5: the amount `12.5` is refused by the ledger client. -/
theorem createEscrow_ledger_failure_no_store_mutation_witness :
    ((Internal.CreateEscrow Sample.env Repository.DB.empty
          (.ok (Sample.request "12.5" [30, 40, 30]))).resp
        = { status := StatusInternalServerError,
            body := [("error", .errorf "Failed to create blockchain escrow"
                        (.new "invalid amount format"))] }
      ∧ (Internal.CreateEscrow Sample.env Repository.DB.empty
          (.ok (Sample.request "12.5" [30, 40, 30]))).tx = []
      ∧ (Internal.CreateEscrow Sample.env Repository.DB.empty
          (.ok (Sample.request "12.5" [30, 40, 30]))).db = Repository.DB.empty)
    ∧ ((Backend.serve Sample.env.client Repository.DB.empty
          (.create (.ok (Sample.request "12.5" [30, 40, 30])))).1.ledger = []
      ∧ (Backend.serve Sample.env.client Repository.DB.empty
          (.create (.ok (Sample.request "12.5" [30, 40, 30])))).2 = Repository.DB.empty) :=
  createEscrow_ledger_failure_no_store_mutation Sample.env Repository.DB.empty
    (.ok (Sample.request "12.5" [30, 40, 30])) (Sample.request "12.5" [30, 40, 30])
    Sample.client (.new "invalid amount format") (by decide) (by decide) rfl (by decide)

/-! ## Milestone amounts -/

/-- Counterexample to C8: the routed `CreateEscrow` answers 201 with its fixed message
to the request for 1000 units split 30, 40, 30, and the store holds no milestone
afterwards: no amount 300, 400 or 300 is derived or stored. -/
theorem routed_createEscrow_stores_no_amount :
    (Backend.serve (some Sample.client) Repository.DB.empty
        (.create (.ok (Sample.request "1000" [30, 40, 30])))).1.resp
      = { status := StatusCreated,
          body := [("message", .str "This endpoint will create a new escrow")] }
    ∧ (Backend.serve (some Sample.client) Repository.DB.empty
        (.create (.ok (Sample.request "1000" [30, 40, 30])))).2.milestones.map (fun m => m.Amount)
      = []
    ∧ (Backend.serve (some Sample.client) Repository.DB.empty
        (.create (.ok (Sample.request "1000" [30, 40, 30])))).2.milestones.map (fun m => m.Amount)
      ≠ ["300", "400", "300"] := by
  decide

/-- Claim C8, amended.  The routed `CreateEscrow` derives and stores no milestone
amount: whatever the body, it answers 201 with its fixed message, makes no ledger call
and leaves the store as it was.  In the persistence-backed handler the amount texts for
1000 units and 30 and 40 percent are `300.000000` and `400.000000`. -/
theorem routed_createEscrow_derives_no_amount (client : Option Blockchain.Client)
    (db : Repository.DB) (body : Except GoError CreateEscrowRequest) :
    Backend.serve client db (.create body)
      = ({ resp := { status := StatusCreated,
                     body := [("message", .str "This endpoint will create a new escrow")] },
           ledger := [] }, db)
    ∧ Internal.milestoneAmount "1000" (F64.ofNat 30) = "300.000000"
    ∧ Internal.milestoneAmount "1000" (F64.ofNat 40) = "400.000000" := by
  refine ⟨rfl, by decide, by decide⟩

/-! ## AddReleaseCondition -/

/-- Claim C9.  A request to `AddReleaseCondition` whose body carries a non-empty `type`
and a non-empty `data` is answered 201 exactly when `type` is one of `third_party`,
`time_based`, `oracle`; with any other `type` the answer is 400 with the error text
`Invalid condition type`. -/
theorem addReleaseCondition_accepts_iff_known_type (escrowId milestoneId : String)
    (b : Backend.ConditionBody) (htype : b.type ≠ "") (hdata : b.data ≠ "") :
    ((Backend.AddReleaseCondition escrowId milestoneId (.ok b)).resp.status = StatusCreated
        ↔ (b.type = "third_party" ∨ b.type = "time_based" ∨ b.type = "oracle"))
    ∧ (¬ (b.type = "third_party" ∨ b.type = "time_based" ∨ b.type = "oracle") →
        (Backend.AddReleaseCondition escrowId milestoneId (.ok b)).resp
          = { status := StatusBadRequest, body := [("error", .str "Invalid condition type")] }) := by
  have hb : Backend.bindConditionRequest (.ok b) = .ok b := by
    simp [Backend.bindConditionRequest, htype, hdata]
  by_cases h : b.type = "third_party" ∨ b.type = "time_based" ∨ b.type = "oracle"
  · simp [Backend.AddReleaseCondition, hb, h]
  · simp [Backend.AddReleaseCondition, hb, h, StatusBadRequest, StatusCreated]

/-- Witness of C9 on the body with type `oracle` and data `feed`. -/
theorem addReleaseCondition_accepts_iff_known_type_witness :
    ((Backend.AddReleaseCondition "e" "m" (.ok { type := "oracle", data := "feed" })).resp.status
        = StatusCreated
        ↔ (("oracle" : String) = "third_party" ∨ ("oracle" : String) = "time_based"
            ∨ ("oracle" : String) = "oracle"))
    ∧ (¬ (("oracle" : String) = "third_party" ∨ ("oracle" : String) = "time_based"
            ∨ ("oracle" : String) = "oracle") →
        (Backend.AddReleaseCondition "e" "m" (.ok { type := "oracle", data := "feed" })).resp
          = { status := StatusBadRequest, body := [("error", .str "Invalid condition type")] }) :=
  addReleaseCondition_accepts_iff_known_type "e" "m" { type := "oracle", data := "feed" }
    (by decide) (by decide)

/-! ## ReleaseEscrow and ReleaseFunds -/

/-- Counterexample to C3: with the sample client, two release requests in sequence for
milestone 1 of the same escrow are both answered 200 and each of them calls
`ReleaseFunds`, which returns nil for that milestone every time. -/
theorem releaseEscrow_twice_releases_twice :
    Sample.client.ReleaseFunds "contract-id-1" 1 "400" = .ok ()
    ∧ (Backend.ReleaseEscrow (some Sample.client) "contract-id-1"
        (.ok { milestoneId := 1, amount := "400" })).resp.status = StatusOK
    ∧ (Backend.ReleaseEscrow (some Sample.client) "contract-id-1"
        (.ok { milestoneId := 1, amount := "400" })).resp.status ≠ StatusInternalServerError
    ∧ ((Backend.ReleaseEscrow (some Sample.client) "contract-id-1"
          (.ok { milestoneId := 1, amount := "400" })).ledger
        ++ (Backend.ReleaseEscrow (some Sample.client) "contract-id-1"
          (.ok { milestoneId := 1, amount := "400" })).ledger).length = 2 := by
  decide

/-- Claim C3, amended.  `ReleaseEscrow` keeps no record of earlier releases: with an
initialised client every request whose body decodes is answered 200 after exactly one
call of `ReleaseFunds`, whatever was released before; so of two requests in sequence
both succeed and the ledger is called twice. -/
theorem releaseEscrow_stateless (cl : Blockchain.Client) (a : Blockchain.SubstrateAPI)
    (hinit : cl.api = some a) (id₁ id₂ : String) (b₁ b₂ : Backend.ReleaseBody) :
    (Backend.ReleaseEscrow (some cl) id₁ (.ok b₁)).resp.status = StatusOK
    ∧ (Backend.ReleaseEscrow (some cl) id₂ (.ok b₂)).resp.status = StatusOK
    ∧ (Backend.ReleaseEscrow (some cl) id₁ (.ok b₁)).ledger = [.releaseFunds id₁ 0 ""]
    ∧ (Backend.ReleaseEscrow (some cl) id₂ (.ok b₂)).ledger = [.releaseFunds id₂ 0 ""] := by
  simp [Backend.ReleaseEscrow, Backend.bindReleaseRequest, Blockchain.Client.ReleaseFunds, hinit]

/-- Witness of the amended C3: the same release sent twice to the sample client. -/
theorem releaseEscrow_stateless_witness :
    (Backend.ReleaseEscrow (some Sample.client) "c" (.ok { milestoneId := 1, amount := "5" })).resp.status
        = StatusOK
    ∧ (Backend.ReleaseEscrow (some Sample.client) "c" (.ok { milestoneId := 1, amount := "5" })).resp.status
        = StatusOK
    ∧ (Backend.ReleaseEscrow (some Sample.client) "c" (.ok { milestoneId := 1, amount := "5" })).ledger
        = [.releaseFunds "c" 0 ""]
    ∧ (Backend.ReleaseEscrow (some Sample.client) "c" (.ok { milestoneId := 1, amount := "5" })).ledger
        = [.releaseFunds "c" 0 ""] :=
  releaseEscrow_stateless Sample.client Sample.api rfl "c" "c"
    { milestoneId := 1, amount := "5" } { milestoneId := 1, amount := "5" }

/-- Counterexample to C4: releases of milestone 1 for the amounts `1` and `2` are both
answered 200 with a ledger call, and `ReleaseFunds` succeeds for both amounts, although
the two amounts cannot both equal the amount of the milestone. -/
theorem releaseEscrow_accepts_two_amounts :
    (Backend.ReleaseEscrow (some Sample.client) "contract-id-1"
        (.ok { milestoneId := 1, amount := "1" })).resp.status = StatusOK
    ∧ (Backend.ReleaseEscrow (some Sample.client) "contract-id-1"
        (.ok { milestoneId := 1, amount := "2" })).resp.status = StatusOK
    ∧ (Backend.ReleaseEscrow (some Sample.client) "contract-id-1"
        (.ok { milestoneId := 1, amount := "1" })).ledger ≠ []
    ∧ (Backend.ReleaseEscrow (some Sample.client) "contract-id-1"
        (.ok { milestoneId := 1, amount := "2" })).ledger ≠ []
    ∧ Sample.client.ReleaseFunds "contract-id-1" 1 "1" = .ok ()
    ∧ Sample.client.ReleaseFunds "contract-id-1" 1 "2" = .ok ()
    ∧ ("1" : String) ≠ "2" := by
  decide

/-- Claim C4, amended.  No release path compares the requested amount with a milestone
amount: `ReleaseFunds` gives the same result for every amount and succeeds whenever the
api handle is set, and with an initialised client `ReleaseEscrow` answers 200 after one
`ReleaseFunds` call to a body that names a milestone and a non-empty amount, whatever
that amount is. -/
theorem release_ignores_amount (cl : Blockchain.Client) (id : String) (m : Nat)
    (amount amount₂ : String) (b : Backend.ReleaseBody) :
    cl.ReleaseFunds id m amount = cl.ReleaseFunds id m amount₂
    ∧ (cl.ReleaseFunds id m amount = .ok () ↔ cl.api ≠ none)
    ∧ (cl.api ≠ none → b.milestoneId ≠ 0 → b.amount ≠ "" →
        (Backend.ReleaseEscrow (some cl) id (.ok b)).resp.status = StatusOK
        ∧ ((Backend.ReleaseEscrow (some cl) id (.ok b)).ledger.filter LedgerCall.isRelease).length
            = 1) := by
  refine ⟨rfl, ?_, ?_⟩
  · cases h : cl.api <;> simp [Blockchain.Client.ReleaseFunds, h]
  · intro hapi _ _
    obtain ⟨a, ha⟩ := Option.ne_none_iff_exists'.mp hapi
    simp [Backend.ReleaseEscrow, Backend.bindReleaseRequest, Blockchain.Client.ReleaseFunds, ha,
      LedgerCall.isRelease]

/-- Witness of the amended C4: a release of milestone 1 for the amount `400` sent to the
sample client. -/
theorem release_ignores_amount_witness :
    (Backend.ReleaseEscrow (some Sample.client) "c"
        (.ok { milestoneId := 1, amount := "400" })).resp.status = StatusOK
    ∧ ((Backend.ReleaseEscrow (some Sample.client) "c"
          (.ok { milestoneId := 1, amount := "400" })).ledger.filter LedgerCall.isRelease).length
        = 1 :=
  (release_ignores_amount Sample.client "c" 1 "400" "500" { milestoneId := 1, amount := "400" }).2.2
    (by simp [Sample.client]) (by decide) (by decide)

/-! ## hexDecodeAddress -/

section HexDecodeAddress

open Blockchain

/-- Claim C17.  `hexDecodeAddress s` succeeds exactly when the text without its `0x`
prefix has even length and consists of hexadecimal digits only; a text with another
character there is rejected with an `invalid address format` error; the empty text is
accepted, the bare `0x` and the SS58 address used by `GetEscrows` are rejected. -/
theorem hexDecodeAddress_accepts_iff (s : String) :
    ((∃ account, hexDecodeAddress s = .ok account) ↔
        ((withoutHexPrefix s.data).length % 2 = 0
          ∧ ∀ c ∈ withoutHexPrefix s.data, isHexDigit c = true))
    ∧ ((∃ c ∈ withoutHexPrefix s.data, isHexDigit c = false) →
        ∃ e, hexDecodeAddress s = .error (.wrap "invalid address format" e))
    ∧ hexDecodeAddress "" = .ok (List.replicate 32 0)
    ∧ hexDecodeAddress "0x" = .error (.wrap "invalid address format" (.hexInvalidByte 'x'))
    ∧ hexDecodeAddress "5GrwvaEF5zXb26Fz9rcQpDWS57CtERHpNehXCPcNoHGKutQY"
        = .error (.wrap "invalid address format" (.hexInvalidByte 'G')) := by
  have hiff : (∃ account, hexDecodeAddress s = .ok account) ↔
        ((withoutHexPrefix s.data).length % 2 = 0
          ∧ ∀ c ∈ withoutHexPrefix s.data, isHexDigit c = true) := by
    rw [← Blockchain.hexDecodeString_ok_iff, Blockchain.hexDecodeAddress_eq]
    cases h : hexDecodeString (withoutHexPrefix s.data) with
    | error e => simp
    | ok bs => simp
  refine ⟨hiff, ?_, by decide, by decide, by decide⟩
  rintro ⟨c, hc, hfalse⟩
  rw [Blockchain.hexDecodeAddress_eq]
  cases h : hexDecodeString (withoutHexPrefix s.data) with
  | error e => exact ⟨e, rfl⟩
  | ok bs =>
    exfalso
    have := ((Blockchain.hexDecodeString_ok_iff _).mp ⟨bs, h⟩).2 c hc
    rw [hfalse] at this
    exact Bool.noConfusion this

/-- Witness of C17 on the text `0x12zz`. -/
theorem hexDecodeAddress_accepts_iff_witness :
    ∃ e, hexDecodeAddress "0x12zz" = .error (.wrap "invalid address format" e) :=
  (hexDecodeAddress_accepts_iff "0x12zz").2.1 ⟨'z', by decide, by decide⟩

/-- Claim C18.  When the text (without its `0x` prefix) decodes to the bytes `b`, the
account returned by `hexDecodeAddress` is `b` itself when `b` has 32 bytes, `b` after
`32 - n` zero bytes when it has `n < 32` bytes (the big-endian value is kept), and the
first 32 bytes of `b` when it has more; it always has 32 bytes. -/
theorem hexDecodeAddress_fits_32_bytes (s : String) (b : List Nat)
    (hdec : hexDecodeString (withoutHexPrefix s.data) = .ok b) :
    (b.length = 32 → hexDecodeAddress s = .ok b)
    ∧ (b.length < 32 →
        hexDecodeAddress s = .ok (List.replicate (32 - b.length) 0 ++ b)
        ∧ bigEndianValue (List.replicate (32 - b.length) 0 ++ b) = bigEndianValue b)
    ∧ (32 < b.length → hexDecodeAddress s = .ok (b.take 32))
    ∧ ∃ account, hexDecodeAddress s = .ok account ∧ account.length = 32 := by
  rw [Blockchain.hexDecodeAddress_eq, hdec]
  refine ⟨?_, ?_, ?_, ?_⟩
  · intro h
    simp [h]
  · intro h
    refine ⟨?_, Blockchain.bigEndianValue_zeros _ _⟩
    have : b.length ≠ 32 := by omega
    simp [this, h]
  · intro h
    have h1 : b.length ≠ 32 := by omega
    have h2 : ¬ b.length < 32 := by omega
    simp [h1, h2]
  · refine ⟨_, rfl, ?_⟩
    by_cases h : b.length = 32
    · simp [h]
    · by_cases h2 : b.length < 32
      · simp only [h, h2, ne_eq, not_false_eq_true, if_true, List.length_append,
          List.length_replicate]
        omega
      · simp only [h, h2, ne_eq, not_false_eq_true, if_true, if_false, List.length_take]
        omega

/-- Witness of C18 on the text `0x0102`. -/
theorem hexDecodeAddress_fits_32_bytes_witness :
    hexDecodeAddress "0x0102"
        = .ok (List.replicate (32 - [1, 2].length) 0 ++ [1, 2])
    ∧ bigEndianValue (List.replicate (32 - [1, 2].length) 0 ++ [1, 2]) = bigEndianValue [1, 2] :=
  (hexDecodeAddress_fits_32_bytes "0x0102" [1, 2] (by decide)).2.1 (by decide)

/-- Claim C19.  For a non-empty text `s` that does not start with `0x`,
`hexDecodeAddress` gives the same result, account or error, for `0x` followed by `s` as
for `s`. -/
theorem hexDecodeAddress_prefix_removed (s : String) (hne : s ≠ "")
    (hstart : s.data.take 2 ≠ ['0', 'x']) :
    hexDecodeAddress ("0x" ++ s) = hexDecodeAddress s := by
  have hdata : s.data ≠ [] := by
    intro h
    apply hne
    cases s with
    | mk d => simp at h; simp [h]
  have h1 : withoutHexPrefix ("0x" ++ s).data = s.data := by
    have : ("0x" ++ s).data = '0' :: 'x' :: s.data := by
      rw [String.data_append]; rfl
    rw [this]
    unfold withoutHexPrefix
    have hlen : ('0' :: 'x' :: s.data).length > 2 := by
      cases hs : s.data with
      | nil => exact absurd hs hdata
      | cons a t => simp
    rw [if_pos ⟨hlen, rfl⟩]
    rfl
  have h2 : withoutHexPrefix s.data = s.data := by
    unfold withoutHexPrefix
    simp [hstart]
  rw [Blockchain.hexDecodeAddress_eq, Blockchain.hexDecodeAddress_eq, h1, h2]

/-- Witness of C19 on the text `ff00`. -/
theorem hexDecodeAddress_prefix_removed_witness :
    hexDecodeAddress ("0x" ++ "ff00") = hexDecodeAddress "ff00" :=
  hexDecodeAddress_prefix_removed "ff00" (by decide) (by decide)

end HexDecodeAddress

/-! ## RequestMilestoneModification -/

/-- Claim C16.  A `RequestMilestoneModification` request whose body decodes is answered
400 with `At least one field must be modified` exactly when title, description and
deadline are all absent; when one of them is present, whatever its value, the answer is
200. -/
theorem requestModification_rejects_iff_all_absent (escrowId milestoneId : String)
    (b : Backend.ModificationBody) :
    ((Backend.RequestMilestoneModification escrowId milestoneId (.ok b)).resp
          = { status := StatusBadRequest,
              body := [("error", .str "At least one field must be modified")] }
        ↔ (b.Title = none ∧ b.Description = none ∧ b.Deadline = none))
    ∧ ((Backend.RequestMilestoneModification escrowId milestoneId (.ok b)).resp.status = StatusOK
        ↔ ¬ (b.Title = none ∧ b.Description = none ∧ b.Deadline = none))
    ∧ (Backend.RequestMilestoneModification escrowId milestoneId
          (.ok { Title := some "", Description := none, Deadline := none })).resp.status = StatusOK
    ∧ (Backend.RequestMilestoneModification escrowId milestoneId
          (.ok { Title := none, Description := none, Deadline := some 0 })).resp.status
        = StatusOK := by
  refine ⟨?_, ?_, by simp [Backend.RequestMilestoneModification],
    by simp [Backend.RequestMilestoneModification]⟩
  · by_cases h : b.Title = none ∧ b.Description = none ∧ b.Deadline = none
    · simp [Backend.RequestMilestoneModification, h]
    · simp [Backend.RequestMilestoneModification, h, StatusBadRequest, StatusOK]
  · by_cases h : b.Title = none ∧ b.Description = none ∧ b.Deadline = none
    · simp [Backend.RequestMilestoneModification, h, StatusBadRequest, StatusOK]
    · simp [Backend.RequestMilestoneModification, h]

/-! ## GetEscrows -/

/-- Claim C20.  Whatever the client is (nil, without api handle, or initialised with
any answers of the node), `GetEscrows` answers 500 and never 200; with an api handle,
`GetBalance` of the fixed user address fails with an `invalid address` error, because
`hexDecodeAddress` rejects its second character `G`. -/
theorem getEscrows_always_500 (client : Option Blockchain.Client) (now1 now2 : Int)
    (api : Blockchain.SubstrateAPI) (publicKey : List Nat) :
    (Backend.GetEscrows client now1 now2).resp.status = StatusInternalServerError
    ∧ (Backend.GetEscrows client now1 now2).resp.status ≠ StatusOK
    ∧ Blockchain.Client.GetBalance { api := some api, publicKey := publicKey } Backend.userAddress
        = ("0", some (.wrap "invalid address"
            (.wrap "invalid address format" (.hexInvalidByte 'G')))) := by
  have haddr : Blockchain.hexDecodeAddress Backend.userAddress
      = .error (.wrap "invalid address format" (.hexInvalidByte 'G')) := by decide
  have hbal : ∀ (a : Blockchain.SubstrateAPI) (pk : List Nat),
      Blockchain.Client.GetBalance { api := some a, publicKey := pk } Backend.userAddress
        = ("0", some (.wrap "invalid address"
            (.wrap "invalid address format" (.hexInvalidByte 'G')))) := by
    intro a pk
    simp [Blockchain.Client.GetBalance, haddr]
  have h500 : (Backend.GetEscrows client now1 now2).resp.status = StatusInternalServerError := by
    cases client with
    | none => rfl
    | some cl =>
      cases hc : cl.GetChainInfo with
      | error e => simp [Backend.GetEscrows, hc]
      | ok info =>
        obtain ⟨capi, pk⟩ := cl
        cases capi with
        | none => simp [Blockchain.Client.GetChainInfo] at hc
        | some a => simp [Backend.GetEscrows, hc, hbal a pk]
  refine ⟨h500, ?_, hbal api publicKey⟩
  rw [h500]
  decide

/-! ## Verification of release conditions -/

section Verification

open Models Repository

/-- Counterexample to C11: milestone 3 has condition 7 met and condition 8 unmet;
`MarkAsMet` on condition 8 makes both met and leaves the milestone row as it was,
`VerifyCondition` of the ledger client returns nil, and the `VerifyReleaseCondition`
handler makes no ledger call: the number of releases triggered is 0, not 1. -/
theorem verification_triggers_no_release :
    (conditionsOf Sample.twoConditionsDB 3).map (fun c => c.IsMet) = [true, false]
    ∧ (conditionsOf ((GormReleaseConditionRepository.MarkAsMet Sample.twoConditionsDB none 50 8
          "0x03").toOption.getD Sample.twoConditionsDB) 3).map (fun c => c.IsMet) = [true, true]
    ∧ ((GormReleaseConditionRepository.MarkAsMet Sample.twoConditionsDB none 50 8
          "0x03").toOption.getD Sample.twoConditionsDB).milestones = [Sample.milestoneRow]
    ∧ Sample.client.VerifyCondition "0x0707070707070707" 3 1 [] = .ok ()
    ∧ ((Backend.VerifyReleaseCondition "1" "3" "8" (.ok { verificationData := "signed" })).ledger.filter
          LedgerCall.isRelease).length = 0
    ∧ ((Backend.VerifyReleaseCondition "1" "3" "8" (.ok { verificationData := "signed" })).ledger.filter
          LedgerCall.isRelease).length ≠ 1 := by
  decide

/-- Claim C11, amended.  Verification of a condition never triggers a release, whether
or not it completes the conditions of the milestone: the `VerifyReleaseCondition`
handler makes no ledger call, `MarkAsMet` leaves the milestone and escrow tables as they
are, and `Client.VerifyCondition` only checks the api handle. -/
theorem verification_never_releases (escrowId milestoneId conditionId : String)
    (body : Except GoError Backend.VerifyBody) (db : DB) (fault : Option GoError) (now : Time)
    (id : UUID) (verifiedBy : String) (c : Blockchain.Client) (contractID : String)
    (milestone index : Nat) (data : List Nat) :
    (Backend.VerifyReleaseCondition escrowId milestoneId conditionId body).ledger = []
    ∧ ((GormReleaseConditionRepository.MarkAsMet db fault now id verifiedBy).toOption.getD db).milestones
        = db.milestones
    ∧ ((GormReleaseConditionRepository.MarkAsMet db fault now id verifiedBy).toOption.getD db).escrows
        = db.escrows
    ∧ (c.VerifyCondition contractID milestone index data = .ok () ↔ c.api ≠ none) := by
  refine ⟨?_, ?_, ?_, ?_⟩
  · cases body <;> rfl
  · cases fault <;> rfl
  · cases fault <;> rfl
  · cases h : c.api <;> simp [Blockchain.Client.VerifyCondition, h]

end Verification

/-! ## Disputes -/

section Disputes

open Models Repository

/-- Counterexample to C12: milestone 3 has one open dispute; `Create` stores a second
open dispute for the same milestone, the `CreateDispute` handler answers 201 and
`Client.CreateDispute` returns nil. -/
theorem second_open_dispute_is_stored :
    (openDisputes Sample.disputeDB 3).length = 1
    ∧ (∃ db, GormDisputeRepository.Create Sample.disputeDB none 22 40 40
          { Sample.openDispute with ID := 0, Title := "again" } = .ok db
        ∧ (openDisputes db 3).length = 2)
    ∧ (Backend.CreateDispute "1").resp.status = StatusCreated
    ∧ Sample.client.CreateDispute "0x0707070707070707" 3 "late" = .ok () := by
  refine ⟨by decide, ⟨_, rfl, by decide⟩, by decide, by decide⟩

/-- Claim C12, amended.  No path looks for an open dispute of the milestone:
`GormDisputeRepository.Create` stores every dispute whose id is not stored yet, with
status `open` unless another status is given, whatever disputes the milestone already
has; the `CreateDispute` handler answers 201 to every request without a ledger call;
and `Client.CreateDispute` returns nil whenever the api handle is set. -/
theorem createDispute_checks_no_open_dispute (db : DB) (newID : UUID) (t1 t2 : Time)
    (d : Dispute) (id : String) (c : Blockchain.Client) (contractID reason : String)
    (milestone : Nat)
    (hfresh : (db.disputes.any fun x => decide (x.ID = (d.BeforeCreate newID t1 t2).ID)) = false) :
    (∃ row : Dispute,
        GormDisputeRepository.Create db none newID t1 t2 d
          = .ok { db with disputes := db.disputes ++ [row] }
        ∧ row.MilestoneID = d.MilestoneID
        ∧ row.Status = (if d.Status = "" then "open" else d.Status))
    ∧ (Backend.CreateDispute id).resp.status = StatusCreated
    ∧ (Backend.CreateDispute id).ledger = []
    ∧ (c.CreateDispute contractID milestone reason = .ok () ↔ c.api ≠ none) := by
  refine ⟨⟨{ d.BeforeCreate newID t1 t2 with
              Status := if d.Status = "" then "open" else d.Status }, ?_, rfl, rfl⟩, rfl, rfl, ?_⟩
  · simp only [GormDisputeRepository.Create, hfresh]
    rfl
  · cases h : c.api <;> simp [Blockchain.Client.CreateDispute, h]

/-- Witness of the amended C12: a second dispute on milestone 3. -/
theorem createDispute_checks_no_open_dispute_witness :
    (∃ row : Dispute,
        GormDisputeRepository.Create Sample.disputeDB none 22 40 40
            { Sample.openDispute with ID := 0, Title := "again" }
          = .ok { Sample.disputeDB with disputes := Sample.disputeDB.disputes ++ [row] }
        ∧ row.MilestoneID = ({ Sample.openDispute with ID := 0, Title := "again" } : Dispute).MilestoneID
        ∧ row.Status = (if ({ Sample.openDispute with ID := 0, Title := "again" } : Dispute).Status = ""
            then "open" else ({ Sample.openDispute with ID := 0, Title := "again" } : Dispute).Status))
    ∧ (Backend.CreateDispute "1").resp.status = StatusCreated
    ∧ (Backend.CreateDispute "1").ledger = []
    ∧ (Sample.client.CreateDispute "c" 3 "late" = .ok () ↔ Sample.client.api ≠ none) :=
  createDispute_checks_no_open_dispute Sample.disputeDB 22 40 40
    { Sample.openDispute with ID := 0, Title := "again" } "1" Sample.client "c" "late" 3
    (by decide)

/-- Counterexample to C13: dispute 21 is resolved through the sample client in favour
of the client; a second `ResolveDispute` of the same dispute, now in favour of the
provider, returns nil as well: it does not fail. -/
theorem resolveDispute_succeeds_again :
    Sample.client.ResolveDispute 21 true = .ok ()
    ∧ Sample.client.ResolveDispute 21 false = .ok ()
    ∧ ∀ e, Sample.client.ResolveDispute 21 false ≠ .error e := by
  refine ⟨by decide, by decide, ?_⟩
  intro e h
  have h2 : Sample.client.ResolveDispute 21 false = .ok () := by decide
  rw [h2] at h
  exact Except.noConfusion h

/-- Claim C13, amended.  `Client.ResolveDispute` does not look at the status of the
dispute: for every dispute id and either flag it returns nil exactly when the api handle
is set, and the error `blockchain client not initialized` exactly when it is not; it
sends no query to the node. -/
theorem resolveDispute_is_unconditional (c : Blockchain.Client) (disputeID : Nat)
    (inFavorOfClient : Bool) :
    (c.ResolveDispute disputeID inFavorOfClient = .ok () ↔ c.api ≠ none)
    ∧ (c.ResolveDispute disputeID inFavorOfClient
          = .error (.new "blockchain client not initialized") ↔ c.api = none)
    ∧ c.rpcCalls (.resolveDispute disputeID inFavorOfClient) = [] := by
  refine ⟨?_, ?_, rfl⟩
  · cases h : c.api <;> simp [Blockchain.Client.ResolveDispute, h]
  · cases h : c.api <;> simp [Blockchain.Client.ResolveDispute, h]

end Disputes

/-! ## Concurrent releases -/

section ConcurrentReleases

open Concurrent Blockchain

/-- Counterexample to C15: two goroutines release the same milestone 1 of contract `c`
at the same time.  Both calls pass the only check `ReleaseFunds` makes (the nil check),
both return nil and both releases are performed. -/
theorem concurrent_releases_both_performed :
    (run Sample.client Sample.release1 Sample.release1 Sample.schedule).pc1 = .done
    ∧ (run Sample.client Sample.release1 Sample.release1 Sample.schedule).pc2 = .done
    ∧ (run Sample.client Sample.release1 Sample.release1 Sample.schedule).res1 = some (.ok ())
    ∧ (run Sample.client Sample.release1 Sample.release1 Sample.schedule).res2 = some (.ok ())
    ∧ (run Sample.client Sample.release1 Sample.release1 Sample.schedule).log
        = [.releaseFunds "c" 1 "300", .releaseFunds "c" 1 "300"] := by
  decide

/-- Claim C15, amended.  Two goroutines that run `ReleaseFunds` on the same client under
any schedule are never both between `mutex.Lock()` and `mutex.Unlock()`; when both have
returned, each has returned what `ReleaseFunds` returns when run alone, the mutex is
free, and the releases performed are those of one of the two sequential orders.
`ReleaseFunds` checks no remaining amount and deducts nothing: with an initialised
client both calls return nil and both releases are performed. -/
theorem concurrent_releases_serialised (c : Client) (a1 a2 : ReleaseArgs)
    (schedule : List Bool) :
    ¬ ((run c a1 a2 schedule).pc1.critical = true ∧ (run c a1 a2 schedule).pc2.critical = true)
    ∧ ((run c a1 a2 schedule).pc1 = .done → (run c a1 a2 schedule).pc2 = .done →
        (run c a1 a2 schedule).res1 = some (c.ReleaseFunds a1.contractID a1.milestoneID a1.amount)
        ∧ (run c a1 a2 schedule).res2
            = some (c.ReleaseFunds a2.contractID a2.milestoneID a2.amount)
        ∧ (run c a1 a2 schedule).held = false
        ∧ ((run c a1 a2 schedule).log = sequentialLog c [a1, a2]
            ∨ (run c a1 a2 schedule).log = sequentialLog c [a2, a1])
        ∧ (c.api ≠ none →
            (run c a1 a2 schedule).res1 = some (.ok ())
            ∧ (run c a1 a2 schedule).res2 = some (.ok ())
            ∧ ((run c a1 a2 schedule).log.filter LedgerCall.isRelease).length = 2)) := by
  obtain ⟨hheld, hex, _, _, hres1, hres2, hlog⟩ := Concurrent.inv_run c a1 a2 schedule
  refine ⟨hex, ?_⟩
  intro h1 h2
  have hl : (run c a1 a2 schedule).log = sequentialLog c [a1, a2]
      ∨ (run c a1 a2 schedule).log = sequentialLog c [a2, a1] := by
    rw [h1, h2] at hlog
    simpa [sequentialLog, contribution] using hlog
  refine ⟨hres1 (Or.inr h1), hres2 (Or.inr h2), ?_, hl, ?_⟩
  · rw [hheld, h1, h2]; rfl
  · intro hapi
    obtain ⟨a, ha⟩ := Option.ne_none_iff_exists'.mp hapi
    have hr : ∀ x : ReleaseArgs,
        c.ReleaseFunds x.contractID x.milestoneID x.amount = .ok () := by
      intro x; simp [Client.ReleaseFunds, ha]
    refine ⟨?_, ?_, ?_⟩
    · rw [hres1 (Or.inr h1), hr]
    · rw [hres2 (Or.inr h2), hr]
    · rcases hl with h | h <;> rw [h] <;>
        simp [sequentialLog, releasesOf, hr, LedgerCall.isRelease]

/-- Witness of the amended C15: the two sample releases under the alternating
schedule. -/
theorem concurrent_releases_serialised_witness :
    (run Sample.client Sample.release1 Sample.release2 Sample.schedule).res1
      = some (Sample.client.ReleaseFunds "c" 1 "300")
    ∧ (run Sample.client Sample.release1 Sample.release2 Sample.schedule).res2
      = some (Sample.client.ReleaseFunds "c" 2 "400")
    ∧ (run Sample.client Sample.release1 Sample.release2 Sample.schedule).held = false
    ∧ ((run Sample.client Sample.release1 Sample.release2 Sample.schedule).log
        = sequentialLog Sample.client [Sample.release1, Sample.release2]
      ∨ (run Sample.client Sample.release1 Sample.release2 Sample.schedule).log
        = sequentialLog Sample.client [Sample.release2, Sample.release1])
    ∧ (Sample.client.api ≠ none →
        (run Sample.client Sample.release1 Sample.release2 Sample.schedule).res1 = some (.ok ())
        ∧ (run Sample.client Sample.release1 Sample.release2 Sample.schedule).res2 = some (.ok ())
        ∧ ((run Sample.client Sample.release1 Sample.release2 Sample.schedule).log.filter
              LedgerCall.isRelease).length = 2) :=
  (concurrent_releases_serialised Sample.client Sample.release1 Sample.release2
    Sample.schedule).2 (by decide) (by decide)

end ConcurrentReleases

/-! ## The ledger client -/

section LedgerClient

open Blockchain

/-- Claim C21.  Whatever the configuration and whatever the outcome of creating the
Substrate API client and the keyring, the error `Initialize` returns is nil, so `main`
never stops on it; when one of the two creations fails on the first call, the returned
client is nil, the error is nil, and `once` is spent. -/
theorem initialize_error_always_nil (pkg : Package) (cfg : Config)
    (newAPI : Except GoError SubstrateAPI) (keyring : Except GoError (List Nat)) :
    (Initialize pkg cfg newAPI keyring).1.2 = none
    ∧ mainStopsAfterInitialize pkg cfg newAPI keyring = false
    ∧ (((∃ e, newAPI = .error e) ∨ (∃ e, keyring = .error e)) →
        (Initialize Package.initial cfg newAPI keyring).1.1.isNone = true
        ∧ (Initialize Package.initial cfg newAPI keyring).1.2 = none
        ∧ (Initialize Package.initial cfg newAPI keyring).2.onceDone = true) := by
  refine ⟨rfl, rfl, ?_⟩
  rintro (⟨e, rfl⟩ | ⟨e, rfl⟩)
  · exact ⟨rfl, rfl, rfl⟩
  · cases newAPI <;> exact ⟨rfl, rfl, rfl⟩

/-- Witness of C21: the node cannot be reached on the first call. -/
theorem initialize_error_always_nil_witness :
    (Initialize Package.initial Sample.config (.error (.external "dial tcp: connection refused"))
        (.ok (List.replicate 32 7))).1.1.isNone = true
    ∧ (Initialize Package.initial Sample.config (.error (.external "dial tcp: connection refused"))
        (.ok (List.replicate 32 7))).1.2 = none
    ∧ (Initialize Package.initial Sample.config (.error (.external "dial tcp: connection refused"))
        (.ok (List.replicate 32 7))).2.onceDone = true :=
  (initialize_error_always_nil Package.initial Sample.config
    (.error (.external "dial tcp: connection refused")) (.ok (List.replicate 32 7))).2.2
    (Or.inl ⟨_, rfl⟩)

/-- Claim C22.  On a client whose api handle is nil, every exported method of `Client`,
with any arguments, returns the error `blockchain client not initialized` and sends no
query to the node. -/
theorem nil_api_operation_fails (c : Client) (now : Int) (op : Operation)
    (hnil : c.api = none) :
    c.returnedError now op = some (.new "blockchain client not initialized")
    ∧ c.rpcCalls op = [] := by
  cases op <;>
    simp [Client.returnedError, Client.rpcCalls, errorOf, hnil, Client.GetChainInfo,
      Client.GetBalance, Client.CreateEscrow, Client.ReleaseFunds, Client.CancelEscrow,
      Client.AddReleaseCondition, Client.VerifyCondition, Client.RequestMilestoneModification,
      Client.ApproveMilestoneModification, Client.ConfirmMilestoneCompletion,
      Client.AddMilestoneEvidence, Client.CreateDispute, Client.ResolveDispute,
      Client.GetEscrowDetails, Client.GetMilestones]

/-- Witness of C22: `GetMilestones` on a client without api handle. -/
theorem nil_api_operation_fails_witness :
    Client.returnedError { api := none, publicKey := [] } 0 (.getMilestones "contract-id-1")
        = some (.new "blockchain client not initialized")
    ∧ Client.rpcCalls { api := none, publicKey := [] } (.getMilestones "contract-id-1") = [] :=
  nil_api_operation_fails { api := none, publicKey := [] } 0 (.getMilestones "contract-id-1") rfl

/-- Claim C23.  On an initialised client and with two addresses that `hexDecodeAddress`
accepts, `Client.CreateEscrow` fails with `invalid amount format` exactly when the amount
is not a non-empty sequence of decimal digits with an optional leading sign; the amounts
`0` and `-5` pass this check. -/
theorem createEscrow_amount_validation (c : Client) (api : SubstrateAPI)
    (clientAddress providerAddress amount : String) (x y : List Nat)
    (hinit : c.api = some api)
    (hclient : hexDecodeAddress clientAddress = .ok x)
    (hprovider : hexDecodeAddress providerAddress = .ok y) :
    (c.CreateEscrow clientAddress providerAddress amount = .error (.new "invalid amount format")
        ↔ isSignedDecimal amount = false)
    ∧ c.CreateEscrow clientAddress providerAddress "0" ≠ .error (.new "invalid amount format")
    ∧ c.CreateEscrow clientAddress providerAddress "-5" ≠ .error (.new "invalid amount format")
    ∧ bigIntSetString "0" = some 0
    ∧ bigIntSetString "-5" = some (-5) := by
  have main : ∀ amt : String,
      (c.CreateEscrow clientAddress providerAddress amt = .error (.new "invalid amount format")
        ↔ isSignedDecimal amt = false) := by
    intro amt
    rw [← bigIntSetString_isSome]
    unfold Client.CreateEscrow
    simp only [hinit, hclient, hprovider]
    cases h3 : bigIntSetString amt with
    | none => simp
    | some v =>
      cases h4 : api.getMetadataLatest with
      | error e => simp
      | ok _ =>
        cases h5 : api.createStorageKey with
        | error e => simp
        | ok _ =>
          cases h6 : api.getStorageLatest with
          | error e => simp
          | ok _ => simp
  refine ⟨main amount, ?_, ?_, by decide, by decide⟩
  · intro h
    have := (main "0").mp h
    revert this
    decide
  · intro h
    have := (main "-5").mp h
    revert this
    decide

/-- Witness of C23 on the sample client and the amount `12.5`. -/
theorem createEscrow_amount_validation_witness :
    (Sample.client.CreateEscrow "0x01" "0x02" "12.5" = .error (.new "invalid amount format")
        ↔ isSignedDecimal "12.5" = false)
    ∧ Sample.client.CreateEscrow "0x01" "0x02" "0" ≠ .error (.new "invalid amount format")
    ∧ Sample.client.CreateEscrow "0x01" "0x02" "-5" ≠ .error (.new "invalid amount format")
    ∧ bigIntSetString "0" = some 0
    ∧ bigIntSetString "-5" = some (-5) :=
  createEscrow_amount_validation Sample.client Sample.api "0x01" "0x02" "12.5"
    (List.replicate 31 0 ++ [1]) (List.replicate 31 0 ++ [2]) rfl (by decide) (by decide)

/-- Claim C24.  The contract id of a successful `Client.CreateEscrow` is `0x` followed
by the digits `%x` writes for the first eight bytes of the public key of the client:
for a key of at least eight bytes these are 16 lowercase hexadecimal digits that decode
to those eight bytes.  The id does not depend on the addresses and the amount: every
successful call on a client with the same public key returns the same id. -/
theorem createEscrow_contract_id (c : Client) (clientAddress providerAddress amount R : String)
    (hok : c.CreateEscrow clientAddress providerAddress amount = .ok R) :
    R = String.mk (['0', 'x'] ++ hexEncode (c.publicKey.take 8))
    ∧ ((8 ≤ c.publicKey.length ∧ ∀ b ∈ c.publicKey, b < 256) →
        (hexEncode (c.publicKey.take 8)).length = 16
        ∧ (∀ ch ∈ hexEncode (c.publicKey.take 8), ch ∈ lowerHexDigits)
        ∧ hexDecodeString (hexEncode (c.publicKey.take 8)) = .ok (c.publicKey.take 8))
    ∧ (∀ (c₂ : Client) (clientAddress₂ providerAddress₂ amount₂ R₂ : String),
        c₂.publicKey = c.publicKey →
        c₂.CreateEscrow clientAddress₂ providerAddress₂ amount₂ = .ok R₂ → R₂ = R) := by
  have hR := Blockchain.createEscrow_ok_id hok
  refine ⟨hR, ?_, ?_⟩
  · rintro ⟨hlen, hbytes⟩
    have hb : ∀ b ∈ c.publicKey.take 8, b < 256 :=
      fun b hb => hbytes b (List.mem_of_mem_take hb)
    refine ⟨?_, Blockchain.hexEncode_lower _ hb, Blockchain.hexDecode_hexEncode _ hb⟩
    rw [Blockchain.hexEncode_length, List.length_take]
    omega
  · intro c₂ a₂ b₂ amt₂ R₂ hpk h₂
    rw [Blockchain.createEscrow_ok_id h₂, hpk, hR]

/-- Witness of C24 on the sample client. -/
theorem createEscrow_contract_id_witness :
    Sample.contractID = String.mk (['0', 'x'] ++ hexEncode (Sample.client.publicKey.take 8))
    ∧ (hexEncode (Sample.client.publicKey.take 8)).length = 16
    ∧ hexDecodeString (hexEncode (Sample.client.publicKey.take 8))
        = .ok (Sample.client.publicKey.take 8)
    ∧ Sample.client.CreateEscrow "0x01" "0x02" "1000" = .ok Sample.contractID
    ∧ Sample.client.CreateEscrow "0xff" "0x00" "7" = .ok Sample.contractID :=
  ⟨(createEscrow_contract_id Sample.client "0x01" "0x02" "1000" Sample.contractID
      (by decide)).1,
   ((createEscrow_contract_id Sample.client "0x01" "0x02" "1000" Sample.contractID
      (by decide)).2.1 ⟨by decide, by decide⟩).1,
   ((createEscrow_contract_id Sample.client "0x01" "0x02" "1000" Sample.contractID
      (by decide)).2.1 ⟨by decide, by decide⟩).2.2,
   by decide, by decide⟩

end LedgerClient

end DotEscrow
